import Mathlib

/-!
Verification of the lmsvr metered LLM gateway against its specification.

Shallow embedding conventions:
* SQLAlchemy rows become Lean structures; a database session becomes an
  explicit record of row lists, and ORM queries become list operations with
  the same filter/first semantics.
* Python floats (costs, budgets, betting lines) are modelled as rationals.
* Timestamps (UTC datetimes) are modelled as integer epoch seconds.
* Fallible calls (HTTPException, MCP invocation errors) become Except.
* Outbound network calls (Ollama, OpenAI, Claude, MCP subprocesses) are
  passed in as function parameters, so the control flow around them is
  verified for every provider behaviour.
-/

namespace LMSvr

/-! ## Data model (api_gateway/database.py) -/

/-- Row of the `customers` table (database.py, class Customer); only the
columns the verified operations read are carried. `monthly_budget` is a
nullable float column, hence `Option ℚ`. -/
structure Customer where
  id : Int
  active : Bool
  monthly_budget : Option ℚ
deriving Repr, DecidableEq

/-- Row of the `api_keys` table (database.py, class APIKey). `expires_at`
is a nullable datetime, modelled as optional epoch seconds. -/
structure APIKey where
  id : Int
  customer_id : Int
  key_hash : String
  expires_at : Option Int
  active : Bool
deriving Repr, DecidableEq

/-- Row of the `usage_logs` table (database.py, class UsageLog). -/
structure UsageLog where
  customer_id : Int
  api_key_id : Int
  endpoint : String
  model : Option String
  request_count : Nat
  cost : ℚ
  timestamp : Int
deriving Repr, DecidableEq

/-- Row of the `pricing_config` table (database.py, class PricingConfig). -/
structure PricingConfig where
  model_name : String
  per_request_cost : ℚ
  per_model_cost : ℚ
  active : Bool
deriving Repr, DecidableEq

/-- The slice of the database the gateway billing/auth code touches:
one record of row lists standing for an open session over the store. -/
structure GatewayDb where
  customers : List Customer
  api_keys : List APIKey
  usage_logs : List UsageLog
  pricing : List PricingConfig
deriving Repr, DecidableEq

/-! ## Authentication (api_gateway/auth.py) -/

/-- Python's `str.startswith`, written prefix-compare-by-take so that it
evaluates inside the kernel (extensionally the same as
`String.startsWith`). -/
def pyStartsWith (s p : String) : Bool :=
  s.take p.length == p

/-- auth.py lines 41-42: strip a leading `"Bearer "` from the presented
credential (`api_key[7:]`). -/
def stripBearer (api_key : String) : String :=
  if pyStartsWith api_key "Bearer " then api_key.drop 7 else api_key

/-- auth.py line 65: a key is expired when it has an `expires_at` strictly
in the past (`db_key.expires_at and db_key.expires_at < datetime.utcnow()`). -/
def keyExpired (now : Int) (k : APIKey) : Bool :=
  match k.expires_at with
  | some e => e < now
  | none => false

/-- auth.py `verify_api_key` (lines 24-80).  SHA-256 itself is an opaque
primitive of the host language, so the digest function `hash_api_key`
(auth.py lines 19-21) is a parameter; every theorem quantifies over it.
The ORM lookup `db.query(APIKey).filter(hash match, active).first()`
becomes `List.find?`, and each `raise HTTPException(401, detail)` becomes
`Except.error detail`. -/
def verify_api_key (hash_api_key : String → String) (now : Int)
    (api_key : String) (db : GatewayDb) : Except String (Customer × APIKey) :=
  if api_key = "" then .error "API key required"
  else
    match db.api_keys.find?
      (fun k => k.key_hash == hash_api_key (stripBearer api_key) && k.active) with
    | none => .error "Invalid API key"
    | some db_key =>
      if keyExpired now db_key then .error "API key has expired"
      else
        match db.customers.find? (fun c => c.id == db_key.customer_id) with
        | some customer =>
            if customer.active then .ok (customer, db_key)
            else .error "Customer account is inactive"
        | none => .error "Customer account is inactive"

/-! ## Usage and billing (api_gateway/usage.py) -/

/-- usage.py `calculate_cost` (lines 13-35): an active PricingConfig row
matched by exact model name prices the call as the sum of its two
components; an unconfigured model costs the flat default 0.01; no model
name means cost 0. -/
def calculate_cost (model : Option String) (_endpoint : String)
    (db : GatewayDb) : ℚ :=
  match model with
  | none => 0
  | some m =>
    match db.pricing.find? (fun p => p.model_name == m && p.active) with
    | some pricing => 0 + pricing.per_request_cost + pricing.per_model_cost
    | none => (0.01 : ℚ)

/-- usage.py `log_usage` (lines 38-61): insert one UsageLog row with
request_count 1 and the current timestamp. -/
def log_usage (now : Int) (customer_id api_key_id : Int) (endpoint : String)
    (model : Option String) (cost : ℚ) (db : GatewayDb) : GatewayDb :=
  { db with usage_logs := db.usage_logs ++
      [{ customer_id := customer_id, api_key_id := api_key_id,
         endpoint := endpoint, model := model, request_count := 1,
         cost := cost, timestamp := now }] }

/-- One day of epoch seconds (`timedelta(days=period_days)`). -/
def secondsPerDay : Int := 86400

/-- usage.py `check_budget` (lines 64-88).  The aggregate query
`sum(UsageLog.cost) filter(customer, timestamp >= start)` becomes a
filtered list sum (`.scalar() or 0.0` is the empty-sum-to-zero case, which
the list sum already gives).  Python's `if customer.monthly_budget:` is a
float truthiness test: a budget that is absent *or exactly 0* takes the
no-budget branch. -/
def check_budget (db : GatewayDb) (customer_id : Int) (now : Int)
    (period_days : Int := 30) : Bool × ℚ × Option ℚ :=
  match db.customers.find? (fun c => c.id == customer_id) with
  | none => (false, 0, none)
  | some customer =>
    let start_date := now - period_days * secondsPerDay
    let total_spending :=
      ((db.usage_logs.filter
          (fun l => l.customer_id == customer_id && start_date ≤ l.timestamp)).map
        (fun l => l.cost)).sum
    match customer.monthly_budget with
    | some budget =>
        if budget ≠ 0 then (decide (total_spending < budget), total_spending, some budget)
        else (true, total_spending, none)
    | none => (true, total_spending, none)

/-! ## Tool-server process manager (api_gateway/mcp_manager.py) -/

/-- One typed content block of an MCP tool result. -/
structure ContentBlock where
  type : String
  text : String
deriving Repr, DecidableEq

/-- Result of an MCP `call_tool` invocation: a list of content blocks. -/
structure ToolCallResult where
  content : List ContentBlock
deriving Repr, DecidableEq

/-- An open MCP client session; its one operation used by `execute_tool`
is `call_tool`, which may fail (modelled as `Except`, standing for a
raised exception). -/
structure MCPSession where
  call_tool : String → List (String × String) → Except String ToolCallResult

/-- The process manager's state: server-name-keyed sessions and the
tool-name-to-server-name map (mcp_manager.py lines 12-16). -/
structure MCPManager where
  sessions : List (String × MCPSession)
  tools_map : List (String × String)

/-- mcp_manager.py `execute_tool` (lines 111-136).  Python's
`if not server_name:` is a truthiness test, so an empty-string server
name also falls into the "not found" branch.  An invocation exception is
caught and rendered as an error string; a success is the newline join of
the text-typed content blocks. -/
def execute_tool (mgr : MCPManager) (tool_name : String)
    (arguments : List (String × String)) : String :=
  match mgr.tools_map.lookup tool_name with
  | none => "Error: Tool " ++ tool_name ++ " not found."
  | some server_name =>
    if server_name = "" then "Error: Tool " ++ tool_name ++ " not found."
    else
      match mgr.sessions.lookup server_name with
      | none => "Error: Server " ++ server_name ++ " not connected."
      | some session =>
        match session.call_tool tool_name arguments with
        | .error e => "Error executing tool " ++ tool_name ++ ": " ++ e
        | .ok result =>
            String.intercalate "\n"
              ((result.content.filter (fun c => c.type == "text")).map
                (fun c => c.text))

/-! ## Odds feed payload shapes (shared by the MCP tool servers) -/

/-- One outcome inside a bookmaker market (odds API payload).  `point`
and `price` are optional numeric fields read with `.get`. -/
structure Outcome where
  name : String
  point : Option ℚ
  price : Option ℚ
deriving Repr, DecidableEq

/-- One market of a bookmaker: `spreads`, `totals` or `h2h`. -/
structure Market where
  key : String
  outcomes : List Outcome
deriving Repr, DecidableEq

/-- One bookmaker of a game. -/
structure Bookmaker where
  markets : List Market
deriving Repr, DecidableEq

/-- One game of the odds feed. -/
structure Game where
  id : String
  home_team : String
  away_team : String
  commence_time : String
  bookmakers : List Bookmaker
deriving Repr, DecidableEq

/-! ## Wong-teaser finder (mcp_servers/live_sports/server.py) -/

/-- One entry of the `wong_favorites` / `wong_dogs` lists built by
`find_teaser_candidates` (live_sports/server.py lines 364-383). -/
structure TeaserCandidate where
  team : String
  opponent : String
  spread : ℚ
  teased : ℚ
  time : String
  matchup : String
deriving Repr, DecidableEq

/-- The per-outcome body of `find_teaser_candidates`'s inner loop
(live_sports/server.py lines 359-383): the spread is `point` with default
0; `-8.5 <= spread <= -7.5` appends a favorite entry, `elif
1.5 <= spread <= 2.5` appends an underdog entry, both teased by +6. -/
def outcomeCandidates (game : Game) (o : Outcome) :
    List TeaserCandidate × List TeaserCandidate :=
  let spread := o.point.getD 0
  let team := o.name
  let cand : TeaserCandidate :=
    { team := team,
      opponent := if team == game.away_team then game.home_team else game.away_team,
      spread := spread, teased := spread + 6,
      time := game.commence_time,
      matchup := game.away_team ++ " @ " ++ game.home_team }
  if -8.5 ≤ spread ∧ spread ≤ -7.5 then ([cand], [])
  else if 1.5 ≤ spread ∧ spread ≤ 2.5 then ([], [cand])
  else ([], [])

/-- live_sports/server.py `find_teaser_candidates` (lines 345-383): the
scan over games producing `(wong_favorites, wong_dogs)`.  Games without a
bookmaker are skipped; only `bookmakers[0]`'s `spreads` markets are read;
the two Python `append` loops become accumulator concatenation. -/
def find_teaser_candidates (data : List Game) :
    List TeaserCandidate × List TeaserCandidate :=
  data.foldl (fun acc game =>
    match game.bookmakers with
    | [] => acc
    | bookie :: _ =>
      bookie.markets.foldl (fun acc market =>
        if market.key == "spreads" then
          market.outcomes.foldl (fun acc o =>
            let (f, d) := outcomeCandidates game o
            (acc.1 ++ f, acc.2 ++ d)) acc
        else acc) acc) ([], [])

/-! ## Betting-monitor alert store (mcp_servers/betting_monitor/server.py) -/

/-- One alert record as written by `compare_to_opening` / saved by
`save_alert` (betting_monitor/server.py lines 459-495).  The ISO
timestamp string is modelled as optional epoch seconds; `none` stands
for a missing or unparseable timestamp. -/
structure Alert where
  type : String
  game_id : String
  game : String
  movement : String
  opening : ℚ
  current : ℚ
  significance : String
  timestamp : Option Int
  sport : String
  sport_emoji : String := ""
deriving Repr, DecidableEq

/-- The persisted `alerts.json` document: active and expired lists. -/
structure AlertStore where
  alerts : List Alert
  expired : List Alert
deriving Repr, DecidableEq

/-- betting_monitor/server.py `SPORT_EMOJIS.get(sport, "🎮")`
(lines 44-56, 143). -/
def sportEmoji (sport : String) : String :=
  (([("americanfootball_nfl", "🏈"), ("americanfootball_ncaaf", "🏈"),
     ("basketball_nba", "🏀"), ("basketball_ncaab", "🏀"),
     ("baseball_mlb", "⚾"), ("icehockey_nhl", "🏒"), ("soccer", "⚽"),
     ("tennis", "🎾"), ("mma", "🥊"), ("boxing", "🥊"), ("golf", "⛳")] :
    List (String × String)).lookup sport).getD "🎮"

/-- The `for alert in alerts:` sweep of `clean_old_alerts`
(betting_monitor/server.py lines 91-107): in list order, an alert with no
(parseable) timestamp is dropped, one newer than the cutoff is kept
(`valid_alerts.append`), and an old one is pushed onto the front of the
expired list (`expired.insert(0, alert)`). -/
def cleanSweep (cutoff : Int) (alerts valid expired : List Alert) :
    List Alert × List Alert :=
  match alerts with
  | [] => (valid, expired)
  | a :: rest =>
    match a.timestamp with
    | none => cleanSweep cutoff rest valid expired
    | some t =>
      if cutoff < t then cleanSweep cutoff rest (valid ++ [a]) expired
      else cleanSweep cutoff rest valid (a :: expired)

/-- betting_monitor/server.py `clean_old_alerts` (lines 76-111): a TTL
value ≤ 0 disables expiry; otherwise the cutoff is `now − ttl` minutes,
the expired list is pre-truncated to 500 when longer, and the sweep moves
stale active alerts onto it. -/
def clean_old_alerts (ttl now : Int) (data : AlertStore) : AlertStore :=
  if ttl ≤ 0 then data
  else
    let cutoff := now - ttl * 60
    let expired0 :=
      if 500 < data.expired.length then data.expired.take 500 else data.expired
    let swept := cleanSweep cutoff data.alerts [] expired0
    { alerts := swept.1, expired := swept.2 }

/-- An active alert the sweep keeps: parseable timestamp strictly newer
than the cutoff. -/
def alertFresh (cutoff : Int) (a : Alert) : Bool :=
  match a.timestamp with
  | some t => cutoff < t
  | none => false

/-- An active alert the sweep moves to the expired list: parseable
timestamp at or before the cutoff. -/
def alertStale (cutoff : Int) (a : Alert) : Bool :=
  match a.timestamp with
  | some t => t ≤ cutoff
  | none => false

/-- The `game_id`+`type` dedup test of `save_alert`
(betting_monitor/server.py lines 147-148, 161-162). -/
def alertMatches (a e : Alert) : Bool :=
  e.game_id == a.game_id && e.type == a.type

/-- The sport-emoji decoration `save_alert` applies before matching
(betting_monitor/server.py lines 142-143). -/
def decorateAlert (a : Alert) : Alert :=
  { a with sport_emoji := sportEmoji a.sport }

/-- The in-place update of the first matching active entry
(betting_monitor/server.py lines 146-157): all fields are overwritten by
the new alert except the preserved original timestamp. -/
def updateFirstAlert (a : Alert) : List Alert → List Alert
  | [] => []
  | e :: rest =>
    if alertMatches a e then { a with timestamp := e.timestamp } :: rest
    else e :: updateFirstAlert a rest

/-- betting_monitor/server.py `save_alert` (lines 127-175), returning the
resulting on-disk store.  The store is cleaned first; a match against an
active entry updates it in place (timestamp preserved) and saves; a match
against an expired entry returns without saving, so the persisted store
is the unmodified input; otherwise the decorated alert is inserted at the
front and the active list truncated to 200. -/
def save_alert (ttl now : Int) (store : AlertStore) (alert : Alert) : AlertStore :=
  let data := clean_old_alerts ttl now store
  let alert := decorateAlert alert
  if data.alerts.any (alertMatches alert) then
    { data with alerts := updateFirstAlert alert data.alerts }
  else if data.expired.any (alertMatches alert) then
    store
  else
    { data with alerts := (alert :: data.alerts).take 200 }

/-- betting_monitor/server.py `get_alerts` (lines 114-124): the read path
cleans, persists the cleaned store, and returns its active alerts. -/
def get_alerts (ttl now : Int) (store : AlertStore) : AlertStore × List Alert :=
  let data := clean_old_alerts ttl now store
  (data, data.alerts)

/-! ## Line-movement comparison (mcp_servers/betting_monitor/server.py) -/

/-- The first-bookmaker line values read by the betting monitor: home and
away spread, total, home and away moneyline.  Doubles as a stored
opening-lines entry and as the `current` dict. -/
structure LineSet where
  spread_home : Option ℚ := none
  spread_away : Option ℚ := none
  total : Option ℚ := none
  ml_home : Option ℚ := none
  ml_away : Option ℚ := none
deriving Repr, DecidableEq

/-- The market scan filling `current` in `compare_to_opening`
(betting_monitor/server.py lines 424-441): `spreads` outcomes keyed by
home-team name (`point` defaulted to 0), the first `totals` outcome's
`point`, and `h2h` outcomes' `price` keyed by home-team name.  A later
market with the same key overwrites an earlier one, as in the source
loop. -/
def readBookmakerLines (home : String) (markets : List Market) : LineSet :=
  markets.foldl (fun cur market =>
    if market.key == "spreads" then
      market.outcomes.foldl (fun cur o =>
        if o.name == home then { cur with spread_home := some (o.point.getD 0) }
        else { cur with spread_away := some (o.point.getD 0) }) cur
    else if market.key == "totals" then
      match market.outcomes with
      | [] => cur
      | o :: _ => { cur with total := o.point }
    else if market.key == "h2h" then
      market.outcomes.foldl (fun cur o =>
        if o.name == home then { cur with ml_home := o.price }
        else { cur with ml_away := o.price }) cur
    else cur) {}

/-- One entry of a game's `game_movements` list
(betting_monitor/server.py lines 450-508). -/
structure Movement where
  type : String
  opening : ℚ
  current : ℚ
  change : ℚ
deriving Repr, DecidableEq

/-- Alert thresholds (betting_monitor/server.py lines 37-39). -/
def SPREAD_MOVE_THRESHOLD : ℚ := 1.0

/-- Total-points movement threshold (betting_monitor/server.py line 38). -/
def TOTAL_MOVE_THRESHOLD : ℚ := 1.5

/-- Moneyline movement threshold (betting_monitor/server.py line 39). -/
def ML_MOVE_THRESHOLD : ℚ := 25

/-- The spread check of `compare_to_opening`'s per-game body
(betting_monitor/server.py lines 446-469): both sides present and
`|Δ| ≥ 1.0` produce a movement entry and a saved alert (HIGH at `≥ 2`,
else MEDIUM). -/
def spreadMovementPart (sport : String) (now : Int)
    (game_id gameLabel : String) (opening current : LineSet) :
    List Movement × List Alert :=
  match current.spread_home, opening.spread_home with
  | some c, some o =>
    let spread_move := c - o
    if SPREAD_MOVE_THRESHOLD ≤ |spread_move| then
      ([({ type := "SPREAD", opening := o, current := c,
           change := spread_move } : Movement)],
       [({ type := "SPREAD_MOVE", game_id := game_id, game := gameLabel,
           movement := "Spread moved", opening := o, current := c,
           significance := if (2 : ℚ) ≤ |spread_move| then "HIGH" else "MEDIUM",
           timestamp := some now, sport := sport } : Alert)])
    else ([], [])
  | _, _ => ([], [])

/-- The total check (betting_monitor/server.py lines 471-495):
`|Δ| ≥ 1.5`, HIGH at `≥ 3`. -/
def totalMovementPart (sport : String) (now : Int)
    (game_id gameLabel : String) (opening current : LineSet) :
    List Movement × List Alert :=
  match current.total, opening.total with
  | some c, some o =>
    let total_move := c - o
    if TOTAL_MOVE_THRESHOLD ≤ |total_move| then
      ([({ type := "TOTAL", opening := o, current := c,
           change := total_move } : Movement)],
       [({ type := "TOTAL_MOVE", game_id := game_id, game := gameLabel,
           movement := "Total moved", opening := o, current := c,
           significance := if (3 : ℚ) ≤ |total_move| then "HIGH" else "MEDIUM",
           timestamp := some now, sport := sport } : Alert)])
    else ([], [])
  | _, _ => ([], [])

/-- The moneyline check (betting_monitor/server.py lines 497-508):
`|Δ| ≥ 25` produces a movement entry only — the source builds no alert
for it. -/
def mlMovementPart (opening current : LineSet) : List Movement :=
  match current.ml_home, opening.ml_home with
  | some c, some o =>
    let ml_move := c - o
    if ML_MOVE_THRESHOLD ≤ |ml_move| then
      [({ type := "MONEYLINE", opening := o, current := c,
          change := ml_move } : Movement)]
    else []
  | _, _ => []

/-- The per-game body of `compare_to_opening`
(betting_monitor/server.py lines 443-515): the three movement checks in
source order, producing the game's `game_movements` entries and the
alerts handed to `save_alert`. -/
def compare_game_movements (sport : String) (now : Int)
    (game_id home away : String) (opening current : LineSet) :
    List Movement × List Alert :=
  let gameLabel := away ++ " @ " ++ home
  let spreadPart := spreadMovementPart sport now game_id gameLabel opening current
  let totalPart := totalMovementPart sport now game_id gameLabel opening current
  let mlPart := mlMovementPart opening current
  (spreadPart.1 ++ totalPart.1 ++ mlPart, spreadPart.2 ++ totalPart.2)

/-- betting_monitor/server.py `compare_to_opening` (lines 370-540)
restricted to its verified core: for each current game whose id has a
stored baseline entry and which has a first bookmaker, compute its
movements and persist each produced alert through `save_alert`, threading
the on-disk store. -/
def compare_to_opening (ttl now : Int) (sport : String)
    (opening_lines : List (String × LineSet)) (games : List Game)
    (store : AlertStore) :
    List (String × List Movement) × AlertStore :=
  games.foldl (fun acc game =>
    match opening_lines.lookup game.id with
    | none => acc
    | some opening =>
      match game.bookmakers with
      | [] => acc
      | bookie :: _ =>
        let current := readBookmakerLines game.home_team bookie.markets
        let gm := compare_game_movements sport now game.id game.home_team
          game.away_team opening current
        let store := gm.2.foldl (save_alert ttl now) acc.2
        (acc.1 ++ (if gm.1.isEmpty then [] else [(game.id, gm.1)]), store))
    ([], store)

/-! ## Local-model tool-calling chat loop (api_gateway/main.py, ollama_chat) -/

/-- One tool call of an Ollama-format assistant message
(`tool_call["function"]` with structured arguments). -/
structure ToolCall where
  name : String
  arguments : List (String × String)
deriving Repr, DecidableEq

/-- One Ollama-format chat message. -/
structure ChatMessage where
  role : String
  content : String
  tool_calls : List ToolCall := []
deriving Repr, DecidableEq

/-- An Ollama chat response; only its `message` is read by the loop. -/
structure OllamaResponse where
  message : ChatMessage
deriving Repr, DecidableEq

/-- One advertised tool, in the `{type: "function", function: {...}}`
shape produced by `get_tools_ollama_format`. -/
structure ToolDef where
  name : String
  description : String
deriving Repr, DecidableEq

/-- The 63-character box-drawing rule used as a section separator inside
the directive prompt (main.py lines 995, 997, 1022, 1024, 1046). -/
def sectionRule : String := String.mk (List.replicate 63 '═')

/-- The second, more directive system prompt appended inside the
tool-execution loop of `ollama_chat` (main.py lines 991-1052), verbatim. -/
def analysisDirectiveContent : String :=
  "You have received REAL-TIME DATA from your tools. NOW SYNTHESIZE this into a PRO-LEVEL BETTING ANALYSIS.

" ++ sectionRule ++ "
⚠️ ANALYSIS CHECKLIST (MANDATORY)
" ++ sectionRule ++ "

1. **DATA VALIDATION**:
   - Did you get odds? If not, why? (Check team name spellings if needed).
   - Did you get stats? If not, explicitly state \"Stats unavailable\" but try to infer from odds.
   - **INJURIES**: If a line moved > 2 pts and you found \"No injuries\", DOUBLE CHECK. Is there a QB change? Suspension? If tool says \"No info\", state \"No reported injuries found via API, but line move suggests hidden factor.\"

2. **LINE MOVEMENT DEEP DIVE**:
   - **WHY did it move?** Don't just say \"It moved.\"
   - HYPOTHESIZE:
     - Crossing 0 (Fav flip)? -> Major sentiment shift.
     - Crossing 3 or 7? -> Key number protection.
     - Steam (rapid move)? -> Syndicate/Sharp action.
   - **Correlation**: Does the Total move match the Spread move? (e.g., Fav spreads -2 -> -4 AND Total drops -> Defense/Weather upgrade).

3. **IMPLIED PROBABILITY & EV**:
   - Calculate implied % for EVERY recommended bet.
   - Compare to your estimated win probability.
   - Example: \"Line -110 (52.4%) vs Estimated Win 60% = +EV\"

4. **CONTEXTUAL FACTORS**:
   - **Venue**: Dome? Outdoors? (Impacts totals).
   - **Rest**: Bye week? Short week (TNF)?
   - **Motivation**: Playoff spot? Tanking?

" ++ sectionRule ++ "
FORMAT YOUR RESPONSE
" ++ sectionRule ++ "

## 📊 [MATCHUP] Analysis
**Time**: [Date/Time] | **Venue**: [Stadium/Type]

### 1. The Setup (Facts)
- **Current Line**: [Spread] | [Total]
- **Movement**: [Describe move]
- **Key Injuries**: [List or \"None reported\"]

### 2. The \"WHY\" (Analysis)
- [Explain the market logic. Why is the line here? Why did it move?]
- [Mention Sharp vs Public splits if evident]

### 3. 🎯 EDGE & RECOMMENDATION
- **Primary Bet**: [Selection] @ [Odds] ([Units]u)
- **Confidence**: [Low/Med/High] because [Rationale]
- **Value**: Implied [X]% vs Estimated [Y]%

### 4. Risks
- [What kills this bet?]

" ++ sectionRule ++ "
DO NOT:
- Output raw JSON
- Suggest \"check later\" - give the best advice NOW based on current data
- Ignore the \"Why\"
- Recommend parlays unless highly correlated (+EV)"

/-- The directive message appended each loop iteration
(main.py lines 991-1052). -/
def analysisDirectiveMessage : ChatMessage :=
  { role := "system", content := analysisDirectiveContent }

/-- Whether a transcript message is the directive system message. -/
def isAnalysisDirective (m : ChatMessage) : Bool :=
  m.role == "system" && m.content == analysisDirectiveContent

/-- One iteration's transcript growth inside the `ollama_chat` loop
(main.py lines 970-1052): the assistant's tool-call message, one
tool-role result message per requested call, then the directive system
message. -/
def loopStepMessages (exec_tool : ToolCall → String)
    (messages : List ChatMessage) (response : OllamaResponse) :
    List ChatMessage :=
  messages ++ [response.message]
    ++ response.message.tool_calls.map
        (fun tc => { role := "tool", content := exec_tool tc })
    ++ [analysisDirectiveMessage]

/-- The `while response.tool_calls and iteration < max_iterations` loop of
`ollama_chat` (main.py lines 964-1061).  The local model is a parameter
`chat` taking the transcript and the tools attached to the call; the
result carries the final iteration count, transcript, response, and the
trace of tools-arguments of every `chat` call made inside the loop (the
source passes `tools=None` on each of them). -/
def ollamaToolLoopFuel
    (chat : List ChatMessage → Option (List ToolDef) → OllamaResponse)
    (exec_tool : ToolCall → String) (max_iterations : Nat) :
    Nat → Nat → List ChatMessage → OllamaResponse →
    Nat × List ChatMessage × OllamaResponse × List (Option (List ToolDef))
  | 0, iteration, messages, response => (iteration, messages, response, [])
  | fuel + 1, iteration, messages, response =>
    if response.message.tool_calls ≠ [] ∧ iteration < max_iterations then
      let messages' := loopStepMessages exec_tool messages response
      let response' := chat messages' none
      let rest := ollamaToolLoopFuel chat exec_tool max_iterations fuel
        (iteration + 1) messages' response'
      (rest.1, rest.2.1, rest.2.2.1, none :: rest.2.2.2)
    else (iteration, messages, response, [])

/-- The loop entry point: the fuel is the number of remaining iterations
`max_iterations - iteration`; the loop guard re-checks
`iteration < max_iterations` exactly as the source `while` does, and when
the fuel runs out that guard is false anyway, so the fuel-structured
recursion computes the very same result as the source loop. -/
def ollamaToolLoop (chat : List ChatMessage → Option (List ToolDef) → OllamaResponse)
    (exec_tool : ToolCall → String) (max_iterations : Nat)
    (iteration : Nat) (messages : List ChatMessage) (response : OllamaResponse) :
    Nat × List ChatMessage × OllamaResponse × List (Option (List ToolDef)) :=
  ollamaToolLoopFuel chat exec_tool max_iterations (max_iterations - iteration)
    iteration messages response

/-- Result of the local-model tool-calling phase. -/
structure ChatPhaseResult where
  iterations : Nat
  transcript : List ChatMessage
  response : OllamaResponse
  chat_tool_args : List (Option (List ToolDef))
deriving Repr, DecidableEq

/-- The tool-calling phase of `ollama_chat` on the local-model path
(main.py lines 951-1061): one initial `chat` call with the tool catalog
attached (`tools if tools else None`), then the bounded loop with
`max_iterations = 5`.  `chat_tool_args` records the tools argument of
every model call in order, the initial call first. -/
def ollamaChatToolPhase
    (chat : List ChatMessage → Option (List ToolDef) → OllamaResponse)
    (exec_tool : ToolCall → String) (tools : List ToolDef)
    (messages_with_system : List ChatMessage) : ChatPhaseResult :=
  let firstTools : Option (List ToolDef) := if tools ≠ [] then some tools else none
  let response := chat messages_with_system firstTools
  let r := ollamaToolLoop chat exec_tool 5 0 messages_with_system response
  { iterations := r.1, transcript := r.2.1, response := r.2.2.1,
    chat_tool_args := firstTools :: r.2.2.2 }

/-! ## OpenAI tool-calling handler (api_gateway/openai_handler.py) -/

/-- One OpenAI-format tool call: a provider-assigned id and a JSON-encoded
argument string. -/
structure OpenAIToolCall where
  id : String
  name : String
  arguments : String
deriving Repr, DecidableEq

/-- One OpenAI-format message; `content` may be null, and tool-result
messages carry `tool_call_id` and `name`. -/
structure OAMessage where
  role : String
  content : Option String := some ""
  tool_calls : List OpenAIToolCall := []
  tool_call_id : String := ""
  name : String := ""
deriving Repr, DecidableEq

/-- An OpenAI chat-completions response, reduced to the
`choices[0].message` the handler reads. -/
structure OAResponse where
  message : OAMessage
deriving Repr, DecidableEq

/-- The Ollama-format envelope `handle_openai_chat` returns
(openai_handler.py lines 92-100). -/
structure OllamaEnvelope where
  model : String
  message : ChatMessage
  done : Bool
deriving Repr, DecidableEq

/-- Result of the OpenAI handler with its loop-iteration count and the
trace of tools-arguments of every provider call. -/
structure OpenAIHandlerResult where
  envelope : OllamaEnvelope
  iterations : Nat
  call_tool_args : List (Option (List ToolDef))
deriving Repr, DecidableEq

/-- The `while tool_calls and iterations < max_iterations` loop of
`handle_openai_chat` (openai_handler.py lines 50-84): appends the
assistant message, executes each tool call (arguments parsed with `{}`
fallback via the `parse_args` parameter), appends the id-carrying tool
message, and calls the provider again with the tools still attached. -/
def openaiToolLoopFuel (call : List OAMessage → Option (List ToolDef) → OAResponse)
    (exec_tool : String → List (String × String) → String)
    (parse_args : String → Option (List (String × String)))
    (tool_arg : Option (List ToolDef)) (max_iterations : Nat) :
    Nat → Nat → List OAMessage → OAResponse →
    Nat × OAResponse × List (Option (List ToolDef))
  | 0, iterations, _messages, response => (iterations, response, [])
  | fuel + 1, iterations, messages, response =>
    if response.message.tool_calls ≠ [] ∧ iterations < max_iterations then
      let messages' := messages ++ [response.message]
        ++ response.message.tool_calls.map (fun tc =>
            { role := "tool",
              content := some (exec_tool tc.name ((parse_args tc.arguments).getD [])),
              tool_call_id := tc.id, name := tc.name })
      let response' := call messages' tool_arg
      let rest := openaiToolLoopFuel call exec_tool parse_args tool_arg
        max_iterations fuel (iterations + 1) messages' response'
      (rest.1, rest.2.1, tool_arg :: rest.2.2)
    else (iterations, response, [])

/-- The handler loop entry point, fuel-structured exactly like
`ollamaToolLoop`: the guard `iterations < max_iterations` is re-checked
as in the source, and the fuel `max_iterations - iterations` never runs
out before the guard fails. -/
def openaiToolLoop (call : List OAMessage → Option (List ToolDef) → OAResponse)
    (exec_tool : String → List (String × String) → String)
    (parse_args : String → Option (List (String × String)))
    (tool_arg : Option (List ToolDef)) (max_iterations : Nat)
    (iterations : Nat) (messages : List OAMessage) (response : OAResponse) :
    Nat × OAResponse × List (Option (List ToolDef)) :=
  openaiToolLoopFuel call exec_tool parse_args tool_arg max_iterations
    (max_iterations - iterations) iterations messages response

/-- openai_handler.py `handle_openai_chat` (lines 12-101): initial
provider call with the converted tool list attached, the bounded loop
with `max_iterations = 5`, and the final content (null coalesced to "")
reshaped into an Ollama-format envelope with `done = true`. -/
def handle_openai_chat
    (openai_chat_completions : List OAMessage → Option (List ToolDef) → OAResponse)
    (exec_tool : String → List (String × String) → String)
    (parse_args : String → Option (List (String × String)))
    (model : String) (tools : List ToolDef)
    (messages_with_system : List OAMessage) : OpenAIHandlerResult :=
  let openai_tools := tools
  let tool_arg : Option (List ToolDef) :=
    if openai_tools ≠ [] then some openai_tools else none
  let response := openai_chat_completions messages_with_system tool_arg
  let r := openaiToolLoop openai_chat_completions exec_tool parse_args tool_arg 5
    0 messages_with_system response
  { envelope :=
      { model := model,
        message := { role := "assistant",
                     content := (r.2.1.message.content).getD "" },
        done := true },
    iterations := r.1,
    call_tool_args := tool_arg :: r.2.2 }

/-! ## Hosted-provider cost tables (api_gateway/external_apis.py) -/

/-- A per-million-token input/output price pair. -/
structure TokenPrice where
  input : ℚ
  output : ℚ
deriving Repr, DecidableEq

/-- Token usage block of an OpenAI response
(`prompt_tokens`/`completion_tokens`, defaulted to 0). -/
structure OAUsage where
  prompt_tokens : Nat := 0
  completion_tokens : Nat := 0
deriving Repr, DecidableEq

/-- external_apis.py `calculate_openai_cost` (lines 57-78): a static
model-name-keyed price table with fallback `0.5/1.5`, applied per million
tokens. -/
def calculate_openai_cost (model : String) (usage : OAUsage) : ℚ :=
  let pricing : List (String × TokenPrice) :=
    [("gpt-4", ⟨30, 60⟩), ("gpt-4-turbo", ⟨10, 30⟩),
     ("gpt-4o", ⟨5, 15⟩), ("gpt-3.5-turbo", ⟨0.5, 1.5⟩)]
  let model_pricing := (pricing.lookup model).getD ⟨0.5, 1.5⟩
  (usage.prompt_tokens : ℚ) / 1000000 * model_pricing.input
    + (usage.completion_tokens : ℚ) / 1000000 * model_pricing.output

/-- Token usage block of a Claude response
(`input_tokens`/`output_tokens`, defaulted to 0). -/
structure ClaudeUsage where
  input_tokens : Nat := 0
  output_tokens : Nat := 0
deriving Repr, DecidableEq

/-- external_apis.py `calculate_claude_cost` (lines 115-135): the
Anthropic price table with fallback `0.25/1.25`. -/
def calculate_claude_cost (model : String) (usage : ClaudeUsage) : ℚ :=
  let pricing : List (String × TokenPrice) :=
    [("claude-3-opus-20240229", ⟨15, 75⟩),
     ("claude-3-sonnet-20240229", ⟨3, 15⟩),
     ("claude-3-haiku-20240307", ⟨0.25, 1.25⟩)]
  let model_pricing := (pricing.lookup model).getD ⟨0.25, 1.25⟩
  (usage.input_tokens : ℚ) / 1000000 * model_pricing.input
    + (usage.output_tokens : ℚ) / 1000000 * model_pricing.output

/-! ## Billed gateway endpoints (api_gateway/main.py)

Each endpoint is modelled after authentication has succeeded (the
`get_current_customer` dependency yields the `(customer, api_key)` pair),
so the verified behaviour is the budget gate, the provider call, and the
usage-logging side effect on the database.  Outbound provider calls are
total function parameters (a provider failure would raise before or after
logging; the claims quantify over successful calls). -/

/-- Outcome of the `/api/chat` handler, abstracting the HTTP responses. -/
inductive ChatOutcome
  | paymentRequired
  | openaiHandled (result : OpenAIHandlerResult)
  | localHandled (result : ChatPhaseResult)
deriving Repr, DecidableEq

/-- main.py `ollama_chat` / `POST /api/chat` (lines 695-1094): budget
check first; a model name starting with `"gpt-"` is delegated wholesale
to `handle_openai_chat` (no usage row is written on that branch); the
local-model branch computes and logs cost upfront, then runs the
tool-calling phase. -/
def ollama_chat_endpoint (now : Int) (db : GatewayDb)
    (customer : Customer) (api_key : APIKey) (model : String)
    (chat : List ChatMessage → Option (List ToolDef) → OllamaResponse)
    (exec_tool : ToolCall → String)
    (openai_chat_completions : List OAMessage → Option (List ToolDef) → OAResponse)
    (exec_tool_named : String → List (String × String) → String)
    (parse_args : String → Option (List (String × String)))
    (tools : List ToolDef) (messages_with_system : List ChatMessage) :
    GatewayDb × ChatOutcome :=
  let budget := check_budget db customer.id now 30
  if !budget.1 then (db, .paymentRequired)
  else if pyStartsWith model "gpt-" then
    (db, .openaiHandled (handle_openai_chat openai_chat_completions
      exec_tool_named parse_args model tools
      (messages_with_system.map (fun m => { role := m.role, content := some m.content }))))
  else
    let cost := calculate_cost (some model) "/api/chat" db
    let db' := log_usage now customer.id api_key.id "/api/chat" (some model) cost db
    (db', .localHandled (ollamaChatToolPhase chat exec_tool tools messages_with_system))

/-- main.py `ollama_generate` / `POST /api/generate` (lines 1126-1171):
budget check, provider call, then cost computed and one usage row
logged. -/
def ollama_generate_endpoint (now : Int) (db : GatewayDb)
    (customer : Customer) (api_key : APIKey) (model prompt : String)
    (generate : String → String → OllamaResponse) :
    GatewayDb × Option OllamaResponse :=
  let budget := check_budget db customer.id now 30
  if !budget.1 then (db, none)
  else
    let response := generate model prompt
    let cost := calculate_cost (some model) "/api/generate" db
    let db' := log_usage now customer.id api_key.id "/api/generate" (some model) cost db
    (db', some response)

/-- An OpenAI pass-through response: the payload plus its usage block. -/
structure OACompletion where
  message : OAMessage
  usage : OAUsage
deriving Repr, DecidableEq

/-- main.py `openai_chat_completions_endpoint` / `POST /v1/chat/completions`
(lines 1175-1229): budget check, direct provider call, cost from the
returned usage block, one usage row logged. -/
def openai_completions_endpoint (now : Int) (db : GatewayDb)
    (customer : Customer) (api_key : APIKey) (model : String)
    (messages : List OAMessage)
    (openai_call : List OAMessage → OACompletion) :
    GatewayDb × Option OACompletion :=
  let budget := check_budget db customer.id now 30
  if !budget.1 then (db, none)
  else
    let response := openai_call messages
    let cost := calculate_openai_cost model response.usage
    let db' := log_usage now customer.id api_key.id "/v1/chat/completions"
      (some model) cost db
    (db', some response)

/-- main.py `ollama_openai_chat_completions` / `POST /v1/ollama/chat/completions`
(lines 1233-1356): budget check, cost computed and one usage row logged
*upfront*, then the local model is called (streamed or not — neither
shape touches the database again). -/
def ollama_openai_completions_endpoint (now : Int) (db : GatewayDb)
    (customer : Customer) (api_key : APIKey) (model : String)
    (messages : List ChatMessage) (_stream : Bool)
    (chat : List ChatMessage → Option (List ToolDef) → OllamaResponse) :
    GatewayDb × Option OllamaResponse :=
  let budget := check_budget db customer.id now 30
  if !budget.1 then (db, none)
  else
    let cost := calculate_cost (some model) "/v1/ollama/chat/completions" db
    let db' := log_usage now customer.id api_key.id "/v1/ollama/chat/completions"
      (some model) cost db
    let response := chat messages none
    (db', some response)

/-- A Claude messages response: payload content plus its usage block. -/
structure ClaudeResponse where
  content : String
  usage : ClaudeUsage
deriving Repr, DecidableEq

/-- main.py `claude_messages_endpoint` / `POST /v1/messages`
(lines 1360-1418): budget check, provider call, cost from the usage
block, one usage row logged. -/
def claude_messages_endpoint (now : Int) (db : GatewayDb)
    (customer : Customer) (api_key : APIKey) (model : String)
    (claude_call : String → ClaudeResponse) :
    GatewayDb × Option ClaudeResponse :=
  let budget := check_budget db customer.id now 30
  if !budget.1 then (db, none)
  else
    let response := claude_call model
    let cost := calculate_claude_cost model response.usage
    let db' := log_usage now customer.id api_key.id "/v1/messages" (some model) cost db
    (db', some response)

/-! ## Concrete fixtures used to instantiate hypothesized theorems -/

/-- The rolling-window spend of a customer, written as a sum of
guarded costs over all usage rows (the specification's reading of
"the sum of UsageLog costs whose timestamp is within the last
`period_days` days"). -/
def rollingSpend (db : GatewayDb) (customer_id : Int) (now period_days : Int) : ℚ :=
  (db.usage_logs.map (fun l =>
    if l.customer_id = customer_id ∧ now - period_days * secondsPerDay ≤ l.timestamp
    then l.cost else 0)).sum

/-- A demonstration customer with a zero monthly budget. -/
def demoZeroBudgetCustomer : Customer :=
  { id := 1, active := true, monthly_budget := some 0 }

/-- A demonstration customer with a 100-unit monthly budget. -/
def demoBudgetCustomer : Customer :=
  { id := 2, active := true, monthly_budget := some 100 }

/-- A demonstration usage row: 150 units of spend for customer 1, well
inside the rolling window at `now = 1000000`. -/
def demoUsageRow : UsageLog :=
  { customer_id := 1, api_key_id := 7, endpoint := "/api/chat",
    model := some "llama3", request_count := 1, cost := 150,
    timestamp := 999000 }

/-- A demonstration database holding both customers and the spend row. -/
def demoDb : GatewayDb :=
  { customers := [demoZeroBudgetCustomer, demoBudgetCustomer],
    api_keys := [], usage_logs := [demoUsageRow], pricing := [] }

/-- A demonstration stand-in for the SHA-256 hex digest: any concrete
deterministic function instantiates the hash-parametric theorems. -/
def demoHash (s : String) : String := "sha256:" ++ s

/-- A demonstration stored API key owned by customer 1, never expiring,
whose hash is `demoHash "sk_abc123"`. -/
def demoAPIKey : APIKey :=
  { id := 7, customer_id := 1, key_hash := "sha256:sk_abc123",
    expires_at := none, active := true }

/-- A demonstration database for authentication: one active key, one
active customer. -/
def demoAuthDb : GatewayDb :=
  { customers := [demoZeroBudgetCustomer], api_keys := [demoAPIKey],
    usage_logs := [], pricing := [] }

/-- A demonstration MCP session whose one tool call succeeds with two
text blocks and one image block. -/
def demoSession : MCPSession :=
  { call_tool := fun _ _ =>
      .ok { content := [{ type := "text", text := "hello" },
                        { type := "image", text := "png" },
                        { type := "text", text := "world" }] } }

/-- A demonstration MCP manager: one connected server owning `get_odds`,
plus a tool mapped to a server that is not connected. -/
def demoManager : MCPManager :=
  { sessions := [("live_sports", demoSession)],
    tools_map := [("get_odds", "live_sports"), ("ghost_tool", "nowhere")] }

/-- A demonstration spreads market: -7.5 on the home side, +7.5 on the
away side. -/
def demoSpreadsMarket : Market :=
  { key := "spreads",
    outcomes := [{ name := "Chiefs", point := some (-7.5), price := none },
                 { name := "Raiders", point := some 7.5, price := none }] }

/-- A demonstration bookmaker carrying only the spreads market. -/
def demoBookmaker : Bookmaker := { markets := [demoSpreadsMarket] }

/-- A demonstration odds-feed game: first bookmaker posts spreads at
-7.5 (home) and +7.5 (away). -/
def demoGame : Game :=
  { id := "g1", home_team := "Chiefs", away_team := "Raiders",
    commence_time := "2025-11-01T18:00:00Z",
    bookmakers := [demoBookmaker] }

/-- The favorite entry `find_teaser_candidates` builds for the
demonstration game's home side. -/
def demoFavCandidate : TeaserCandidate :=
  { team := "Chiefs", opponent := "Raiders", spread := -7.5, teased := -1.5,
    time := "2025-11-01T18:00:00Z", matchup := "Raiders @ Chiefs" }

/-- A demonstration alert for game `g1`, timestamped at epoch 0. -/
def demoOldAlert : Alert :=
  { type := "SPREAD_MOVE", game_id := "g1", game := "Raiders @ Chiefs",
    movement := "Spread moved", opening := 3, current := 5,
    significance := "HIGH", timestamp := some 0,
    sport := "americanfootball_nfl", sport_emoji := "🏈" }

/-- A re-detection of the same movement for the same game and type, two
hours later. -/
def demoNewAlert : Alert :=
  { type := "SPREAD_MOVE", game_id := "g1", game := "Raiders @ Chiefs",
    movement := "Spread moved", opening := 3, current := 6,
    significance := "HIGH", timestamp := some 7200,
    sport := "americanfootball_nfl", sport_emoji := "" }

/-- A store in which the `g1` spread alert has already expired. -/
def demoExpiredStore : AlertStore :=
  { alerts := [], expired := [demoOldAlert] }

/-- A demonstration local model that answers every call with one tool
call. -/
def demoToolChat : List ChatMessage → Option (List ToolDef) → OllamaResponse :=
  fun _ _ =>
    { message := { role := "assistant", content := "",
                   tool_calls := [{ name := "get_odds", arguments := [] }] } }

/-- A demonstration tool executor. -/
def demoExecTool : ToolCall → String := fun _ => "data"

/-- A demonstration OpenAI provider that answers every call with one tool
call. -/
def demoOpenAICall : List OAMessage → Option (List ToolDef) → OAResponse :=
  fun _ _ =>
    { message := { role := "assistant", content := some "",
                   tool_calls := [{ id := "call_1", name := "get_odds",
                                    arguments := "\x7b\x7d" }] } }

/-- A demonstration named tool executor for the OpenAI path. -/
def demoExecToolNamed : String → List (String × String) → String :=
  fun _ _ => "data"

/-- A demonstration JSON argument parser that always fails (the handler
falls back to the empty argument map). -/
def demoParseArgs : String → Option (List (String × String)) := fun _ => none

/-! ## Helper lemmas -/

theorem sum_map_filter_cost (logs : List UsageLog) (cid start : Int) :
    ((logs.filter (fun l => l.customer_id == cid && start ≤ l.timestamp)).map
        (fun l => l.cost)).sum
      = (logs.map (fun l =>
          if l.customer_id = cid ∧ start ≤ l.timestamp then l.cost else 0)).sum := by
  induction logs with
  | nil => simp
  | cons x xs ih =>
    by_cases hx : x.customer_id = cid ∧ start ≤ x.timestamp
    · obtain ⟨h1, h2⟩ := hx
      simp [List.filter_cons, h1, h2, ih]
    · simp [List.filter_cons, hx, ih]

theorem customers_find?_eq (db : GatewayDb) (cid : Int) (c : Customer)
    (hids : db.customers.Pairwise (fun a b => a.id ≠ b.id))
    (hc : c ∈ db.customers) (hcid : c.id = cid) :
    db.customers.find? (fun x => x.id == cid) = some c := by
  have hsome : (db.customers.find? (fun x => x.id == cid)).isSome := by
    refine List.find?_isSome.mpr ⟨c, hc, ?_⟩
    simp [hcid]
  obtain ⟨c', hc'⟩ := Option.isSome_iff_exists.mp hsome
  have hmem : c' ∈ db.customers := List.mem_of_find?_eq_some hc'
  have hpc : c'.id = cid := by
    have := List.find?_some hc'
    simpa using this
  by_cases hne : c' = c
  · rw [hc', hne]
  · exact absurd (hpc.trans hcid.symm)
      (hids.forall (fun a b h => (h ∘ Eq.symm : b.id ≠ a.id)) hmem hc hne)

theorem customers_find?_eq_none (db : GatewayDb) (cid : Int)
    (habs : ∀ c ∈ db.customers, c.id ≠ cid) :
    db.customers.find? (fun x => x.id == cid) = none := by
  refine List.find?_eq_none.mpr (fun c hc => ?_)
  simp [habs c hc]

theorem api_keys_find?_eq (db : GatewayDb) (kh : String) (k : APIKey)
    (hkeys : db.api_keys.Pairwise (fun a b => a.key_hash ≠ b.key_hash))
    (hk : k ∈ db.api_keys) (hhash : k.key_hash = kh) (hact : k.active = true) :
    db.api_keys.find? (fun x => x.key_hash == kh && x.active) = some k := by
  have hsome : (db.api_keys.find? (fun x => x.key_hash == kh && x.active)).isSome := by
    refine List.find?_isSome.mpr ⟨k, hk, ?_⟩
    simp [hhash, hact]
  obtain ⟨k', hk'⟩ := Option.isSome_iff_exists.mp hsome
  have hmem : k' ∈ db.api_keys := List.mem_of_find?_eq_some hk'
  have hpk : k'.key_hash = kh := by
    have := List.find?_some hk'
    simp only [Bool.and_eq_true, beq_iff_eq] at this
    exact this.1
  by_cases hne : k' = k
  · rw [hk', hne]
  · exact absurd (hpk.trans hhash.symm)
      (hkeys.forall (fun a b h => (h ∘ Eq.symm : b.key_hash ≠ a.key_hash)) hmem hk hne)

/-! ## Claims -/

/-- C3: `check_budget` reports not-within-budget with spending 0 and an
absent limit for an absent customer; reports within-budget with the
rolling-window spend and an absent limit when the customer's monthly
budget is not configured (absent, or 0 — Python float truthiness, the
case claim C10 spells out); and otherwise reports within-budget exactly
when the rolling-window spend is strictly below the budget, returning
both spend and limit. -/
theorem check_budget_characterization (db : GatewayDb)
    (customer_id now period_days : Int)
    (hids : db.customers.Pairwise (fun a b => a.id ≠ b.id)) :
    ((∀ c ∈ db.customers, c.id ≠ customer_id) →
        check_budget db customer_id now period_days = (false, 0, none))
    ∧ (∀ c ∈ db.customers, c.id = customer_id →
        ((c.monthly_budget = none ∨ c.monthly_budget = some 0) →
            check_budget db customer_id now period_days =
              (true, rollingSpend db customer_id now period_days, none))
        ∧ (∀ b, c.monthly_budget = some b → b ≠ 0 →
            check_budget db customer_id now period_days =
              (decide (rollingSpend db customer_id now period_days < b),
               rollingSpend db customer_id now period_days, some b))) := by
  constructor
  · intro habs
    rw [check_budget, customers_find?_eq_none db customer_id habs]
  · intro c hc hcid
    have hfind := customers_find?_eq db customer_id c hids hc hcid
    have hsum := sum_map_filter_cost db.usage_logs customer_id
      (now - period_days * secondsPerDay)
    constructor
    · rintro (hb | hb) <;>
      · simp only [check_budget, hfind, hb, rollingSpend, ne_eq, not_true_eq_false,
          if_false, ite_self]
        rw [hsum]
    · intro b hb hbne
      simp only [check_budget, hfind, hb, rollingSpend, ne_eq, hbne,
        not_false_eq_true, if_true]
      rw [hsum]

/-- C3 witness: the characterization applied to the demonstration
database for customer 2 (budget 100, spend 0 in-window). -/
theorem check_budget_characterization_witness :
    check_budget demoDb 2 1000000 30 =
      (decide (rollingSpend demoDb 2 1000000 30 < 100),
       rollingSpend demoDb 2 1000000 30, some 100) :=
  ((check_budget_characterization demoDb 2 1000000 30 (by decide)).2
    demoBudgetCustomer (by decide) (by decide)).2 100 (by decide) (by decide)

/-- C10: a monthly budget of exactly 0 is Python-falsy, so `check_budget`
takes the unconfigured-budget branch: within-budget with an absent limit,
regardless of accumulated spend. -/
theorem check_budget_zero_budget_unlimited (db : GatewayDb)
    (customer_id now period_days : Int) (c : Customer)
    (hids : db.customers.Pairwise (fun a b => a.id ≠ b.id))
    (hc : c ∈ db.customers) (hcid : c.id = customer_id)
    (hb : c.monthly_budget = some 0) :
    (check_budget db customer_id now period_days).1 = true
    ∧ (check_budget db customer_id now period_days).2.2 = none := by
  have hfind := customers_find?_eq db customer_id c hids hc hcid
  simp [check_budget, hfind, hb]

/-- C10 witness: customer 1 of the demonstration database has budget 0
and 150 units of in-window spend, yet is reported within budget with no
limit. -/
theorem check_budget_zero_budget_unlimited_witness :
    (check_budget demoDb 1 1000000 30).1 = true
    ∧ (check_budget demoDb 1 1000000 30).2.2 = none :=
  check_budget_zero_budget_unlimited demoDb 1 1000000 30
    demoZeroBudgetCustomer (by decide) (by decide) (by decide) (by decide)

/-- C2: `verify_api_key` succeeds, returning the owning customer and key,
if and only if the presented credential is nonempty and — after optional
`"Bearer "` stripping — hashes to the `key_hash` of a stored active
APIKey that is unexpired (absent `expires_at`, or not in the past) and
whose owning customer exists and is active; every success returns exactly
such a pair, and every other case is an error result carrying a message.
The hash function is a parameter standing for the deterministic SHA-256
hex digest; the uniqueness hypotheses mirror the schema's `unique`
constraints on `api_keys.key_hash` and `customers.id`. -/
theorem verify_api_key_characterization
    (hash_api_key : String → String) (now : Int) (cred : String) (db : GatewayDb)
    (hkeys : db.api_keys.Pairwise (fun a b => a.key_hash ≠ b.key_hash))
    (hcust : db.customers.Pairwise (fun a b => a.id ≠ b.id)) :
    ((∃ c k, verify_api_key hash_api_key now cred db = .ok (c, k)) ↔
      (cred ≠ "" ∧ ∃ k ∈ db.api_keys, k.active = true ∧
        k.key_hash = hash_api_key (stripBearer cred) ∧
        (∀ e, k.expires_at = some e → now ≤ e) ∧
        ∃ c ∈ db.customers, c.id = k.customer_id ∧ c.active = true))
    ∧ (∀ c k, verify_api_key hash_api_key now cred db = .ok (c, k) →
        k ∈ db.api_keys ∧ k.active = true ∧
        k.key_hash = hash_api_key (stripBearer cred) ∧
        (∀ e, k.expires_at = some e → now ≤ e) ∧
        c ∈ db.customers ∧ c.id = k.customer_id ∧ c.active = true)
    ∧ ((¬ ∃ c k, verify_api_key hash_api_key now cred db = .ok (c, k)) →
        ∃ msg, verify_api_key hash_api_key now cred db = .error msg) := by
  have hOk : ∀ c k, verify_api_key hash_api_key now cred db = .ok (c, k) →
      k ∈ db.api_keys ∧ k.active = true ∧
      k.key_hash = hash_api_key (stripBearer cred) ∧
      (∀ e, k.expires_at = some e → now ≤ e) ∧
      c ∈ db.customers ∧ c.id = k.customer_id ∧ c.active = true := by
    intro c k hok
    unfold verify_api_key at hok
    split at hok
    · exact absurd hok (by simp)
    · split at hok
      · exact absurd hok (by simp)
      · rename_i db_key hfind
        split at hok
        · exact absurd hok (by simp)
        · rename_i hexp
          split at hok
          · rename_i customer hfindc
            split at hok
            · rename_i hactc
              obtain ⟨hc, hk⟩ : customer = c ∧ db_key = k := by
                have := hok
                simp only [Except.ok.injEq, Prod.mk.injEq] at this
                exact this
              subst hc hk
              have hmemk := List.mem_of_find?_eq_some hfind
              have hpk := List.find?_some hfind
              simp only [Bool.and_eq_true, beq_iff_eq] at hpk
              have hmemc := List.mem_of_find?_eq_some hfindc
              have hpc := List.find?_some hfindc
              simp only [beq_iff_eq] at hpc
              refine ⟨hmemk, hpk.2, hpk.1, ?_, hmemc, hpc, hactc⟩
              intro e he
              simp only [keyExpired, he, decide_eq_true_eq] at hexp
              omega
            · exact absurd hok (by simp)
          · exact absurd hok (by simp)
  refine ⟨⟨?_, ?_⟩, hOk, ?_⟩
  · rintro ⟨c, k, hok⟩
    obtain ⟨hmemk, hact, hhash, hexp, hmemc, hcid, hactc⟩ := hOk c k hok
    refine ⟨?_, k, hmemk, hact, hhash, hexp, c, hmemc, hcid.symm ▸ rfl, hactc⟩
    intro hempty
    rw [verify_api_key, if_pos hempty] at hok
    exact absurd hok (by simp)
  · rintro ⟨hne, k, hmemk, hact, hhash, hexp, c, hmemc, hcid, hactc⟩
    refine ⟨c, k, ?_⟩
    have hfind := api_keys_find?_eq db (hash_api_key (stripBearer cred)) k hkeys
      hmemk hhash hact
    have hfindc := customers_find?_eq db k.customer_id c hcust hmemc hcid
    have hnotexp : keyExpired now k = false := by
      unfold keyExpired
      cases he : k.expires_at with
      | none => rfl
      | some e =>
        have := hexp e he
        simp only [decide_eq_false_iff_not]
        omega
    rw [verify_api_key, if_neg hne, hfind]
    simp only [hnotexp, Bool.false_eq_true, if_false, hfindc, hactc, if_true]
  · intro hfail
    cases hres : verify_api_key hash_api_key now cred db with
    | ok p => exact absurd ⟨p.1, p.2, hres⟩ hfail
    | error msg => exact ⟨msg, rfl⟩

/-- C2 witness: the credential `"Bearer sk_abc123"` authenticates against
the demonstration database under the demonstration digest. -/
theorem verify_api_key_characterization_witness :
    ∃ c k, verify_api_key demoHash 0 "Bearer sk_abc123" demoAuthDb = .ok (c, k) :=
  ((verify_api_key_characterization demoHash 0 "Bearer sk_abc123" demoAuthDb
      (by decide) (by decide)).1).mpr
    ⟨by decide, demoAPIKey, by decide, by decide, by decide,
      (fun e he => by simp [demoAPIKey] at he),
      demoZeroBudgetCustomer, by decide, by decide, by decide⟩

/-- C5: `execute_tool` is a total function into `String` — every outcome,
including every invocation failure, is rendered as a string, never
propagated: an unmapped tool name (or one mapped to a Python-falsy empty
server name) yields the tool-not-found string, a mapped server without an
open session yields the not-connected string, a throwing invocation
yields the error-description string, and a successful invocation yields
the newline join of the text-typed content blocks. -/
theorem execute_tool_total_characterization (mgr : MCPManager)
    (tool_name : String) (arguments : List (String × String)) :
    (mgr.tools_map.lookup tool_name = none →
        execute_tool mgr tool_name arguments =
          "Error: Tool " ++ tool_name ++ " not found.")
    ∧ (∀ server_name, mgr.tools_map.lookup tool_name = some server_name →
        server_name = "" →
        execute_tool mgr tool_name arguments =
          "Error: Tool " ++ tool_name ++ " not found.")
    ∧ (∀ server_name, mgr.tools_map.lookup tool_name = some server_name →
        server_name ≠ "" → mgr.sessions.lookup server_name = none →
        execute_tool mgr tool_name arguments =
          "Error: Server " ++ server_name ++ " not connected.")
    ∧ (∀ server_name session e, mgr.tools_map.lookup tool_name = some server_name →
        server_name ≠ "" → mgr.sessions.lookup server_name = some session →
        session.call_tool tool_name arguments = .error e →
        execute_tool mgr tool_name arguments =
          "Error executing tool " ++ tool_name ++ ": " ++ e)
    ∧ (∀ server_name session result,
        mgr.tools_map.lookup tool_name = some server_name →
        server_name ≠ "" → mgr.sessions.lookup server_name = some session →
        session.call_tool tool_name arguments = .ok result →
        execute_tool mgr tool_name arguments =
          String.intercalate "\n"
            ((result.content.filter (fun c => c.type == "text")).map
              (fun c => c.text))) := by
  refine ⟨?_, ?_, ?_, ?_, ?_⟩
  · intro h
    rw [execute_tool, h]
  · intro server_name h he
    subst he
    rw [execute_tool, h]
    simp
  · intro server_name h hne hsess
    rw [execute_tool, h]
    simp only [if_neg hne, hsess]
  · intro server_name session e h hne hsess hcall
    rw [execute_tool, h]
    simp only [if_neg hne, hsess, hcall]
  · intro server_name session result h hne hsess hcall
    rw [execute_tool, h]
    simp only [if_neg hne, hsess, hcall]

/-- C5 witness: the successful case on the demonstration manager: the
`get_odds` call returns the newline join of its two text blocks, and the
disconnected-server case yields its descriptive string. -/
theorem execute_tool_total_characterization_witness :
    execute_tool demoManager "get_odds" [] = "hello\nworld"
    ∧ execute_tool demoManager "ghost_tool" [] =
        "Error: Server nowhere not connected." := by
  constructor
  · have h := (execute_tool_total_characterization demoManager "get_odds" []).2.2.2.2
      "live_sports" demoSession
      { content := [{ type := "text", text := "hello" },
                    { type := "image", text := "png" },
                    { type := "text", text := "world" }] }
      rfl (by decide) rfl rfl
    rw [h]
    rfl
  · exact (execute_tool_total_characterization demoManager "ghost_tool" []).2.2.1
      "nowhere" rfl (by decide) rfl

/-! ### Wong-teaser scan characterization -/

/-- The favorite / underdog entries contributed by one game (its first
bookmaker's `spreads` outcomes, classified by `outcomeCandidates`). -/
def gameCandidates (game : Game) : List TeaserCandidate × List TeaserCandidate :=
  match game.bookmakers with
  | [] => ([], [])
  | bookie :: _ =>
    (bookie.markets.flatMap (fun m =>
       if m.key == "spreads" then
         m.outcomes.flatMap (fun o => (outcomeCandidates game o).1)
       else []),
     bookie.markets.flatMap (fun m =>
       if m.key == "spreads" then
         m.outcomes.flatMap (fun o => (outcomeCandidates game o).2)
       else []))

theorem teaser_outcomes_fold (game : Game) (os : List Outcome)
    (acc : List TeaserCandidate × List TeaserCandidate) :
    os.foldl (fun acc o =>
        let (f, d) := outcomeCandidates game o
        (acc.1 ++ f, acc.2 ++ d)) acc
      = (acc.1 ++ os.flatMap (fun o => (outcomeCandidates game o).1),
         acc.2 ++ os.flatMap (fun o => (outcomeCandidates game o).2)) := by
  induction os generalizing acc with
  | nil => simp
  | cons o os ih =>
    simp only [List.foldl_cons, List.flatMap_cons, ih]
    simp [List.append_assoc]

theorem teaser_markets_fold (game : Game) (ms : List Market)
    (acc : List TeaserCandidate × List TeaserCandidate) :
    ms.foldl (fun acc market =>
        if market.key == "spreads" then
          market.outcomes.foldl (fun acc o =>
            let (f, d) := outcomeCandidates game o
            (acc.1 ++ f, acc.2 ++ d)) acc
        else acc) acc
      = (acc.1 ++ ms.flatMap (fun m =>
            if m.key == "spreads" then
              m.outcomes.flatMap (fun o => (outcomeCandidates game o).1)
            else []),
         acc.2 ++ ms.flatMap (fun m =>
            if m.key == "spreads" then
              m.outcomes.flatMap (fun o => (outcomeCandidates game o).2)
            else [])) := by
  induction ms generalizing acc with
  | nil => simp
  | cons m ms ih =>
    rw [List.foldl_cons, ih]
    by_cases hm : m.key == "spreads"
    · simp only [if_pos hm, teaser_outcomes_fold, List.flatMap_cons]
      simp [List.append_assoc]
    · simp only [if_neg hm, List.flatMap_cons]
      simp [if_neg hm]

theorem find_teaser_candidates_eq (data : List Game) :
    find_teaser_candidates data
      = (data.flatMap (fun g => (gameCandidates g).1),
         data.flatMap (fun g => (gameCandidates g).2)) := by
  suffices h : ∀ acc : List TeaserCandidate × List TeaserCandidate,
      data.foldl (fun acc game =>
        match game.bookmakers with
        | [] => acc
        | bookie :: _ =>
          bookie.markets.foldl (fun acc market =>
            if market.key == "spreads" then
              market.outcomes.foldl (fun acc o =>
                let (f, d) := outcomeCandidates game o
                (acc.1 ++ f, acc.2 ++ d)) acc
            else acc) acc) acc
      = (acc.1 ++ data.flatMap (fun g => (gameCandidates g).1),
         acc.2 ++ data.flatMap (fun g => (gameCandidates g).2)) by
    rw [find_teaser_candidates, h ([], [])]
    simp
  induction data with
  | nil => intro acc; simp
  | cons g gs ih =>
    intro acc
    rw [List.foldl_cons, ih]
    cases hb : g.bookmakers with
    | nil =>
      simp only [hb, List.flatMap_cons, gameCandidates]
      simp
    | cons bookie rest =>
      simp only [hb, teaser_markets_fold, List.flatMap_cons, gameCandidates]
      simp [List.append_assoc]

/-- The favorite record built for a qualifying outcome
(live_sports/server.py lines 365-372). -/
def favoriteEntry (game : Game) (o : Outcome) : TeaserCandidate :=
  { team := o.name,
    opponent := if o.name == game.away_team then game.home_team else game.away_team,
    spread := o.point.getD 0, teased := o.point.getD 0 + 6,
    time := game.commence_time,
    matchup := game.away_team ++ " @ " ++ game.home_team }

theorem outcomeCandidates_eq (game : Game) (o : Outcome) :
    outcomeCandidates game o =
      (if (-8.5 : ℚ) ≤ o.point.getD 0 ∧ o.point.getD 0 ≤ -7.5 then
        ([favoriteEntry game o], [])
      else if (1.5 : ℚ) ≤ o.point.getD 0 ∧ o.point.getD 0 ≤ 2.5 then
        ([], [favoriteEntry game o])
      else ([], [])) := rfl

theorem mem_outcomeCandidates_fst (game : Game) (o : Outcome)
    (cand : TeaserCandidate) :
    cand ∈ (outcomeCandidates game o).1 ↔
      ((-8.5 : ℚ) ≤ o.point.getD 0 ∧ o.point.getD 0 ≤ -7.5 ∧
        cand = favoriteEntry game o) := by
  rw [outcomeCandidates_eq]
  split_ifs with h1 h2
  · simp [h1.1, h1.2]
  · simp only [List.not_mem_nil, false_iff]
    rintro ⟨ha, hb, -⟩
    exact h1 ⟨ha, hb⟩
  · simp only [List.not_mem_nil, false_iff]
    rintro ⟨ha, hb, -⟩
    exact h1 ⟨ha, hb⟩

theorem mem_outcomeCandidates_snd (game : Game) (o : Outcome)
    (cand : TeaserCandidate) :
    cand ∈ (outcomeCandidates game o).2 ↔
      ((1.5 : ℚ) ≤ o.point.getD 0 ∧ o.point.getD 0 ≤ 2.5 ∧
        cand = favoriteEntry game o) := by
  rw [outcomeCandidates_eq]
  split_ifs with h1 h2
  · simp only [List.not_mem_nil, false_iff]
    rintro ⟨ha, -, -⟩
    linarith [h1.2]
  · simp [h2.1, h2.2]
  · simp only [List.not_mem_nil, false_iff]
    rintro ⟨ha, hb, -⟩
    exact h2 ⟨ha, hb⟩

/-- C9: a first-bookmaker spread outcome is listed as a Wong-teaser
favorite exactly when its spread lies in the closed interval
[-8.5, -7.5], and as a Wong-teaser underdog exactly when it lies in
[1.5, 2.5]; each produced candidate carries the teased line
`spread + 6`. -/
theorem find_teaser_candidates_characterization (data : List Game)
    (cand : TeaserCandidate) :
    (cand ∈ (find_teaser_candidates data).1 ↔
      ∃ g ∈ data, ∃ bookie rest, g.bookmakers = bookie :: rest ∧
        ∃ m ∈ bookie.markets, m.key = "spreads" ∧
          ∃ o ∈ m.outcomes, (-8.5 : ℚ) ≤ o.point.getD 0 ∧
            o.point.getD 0 ≤ -7.5 ∧ cand = favoriteEntry g o)
    ∧ (cand ∈ (find_teaser_candidates data).2 ↔
      ∃ g ∈ data, ∃ bookie rest, g.bookmakers = bookie :: rest ∧
        ∃ m ∈ bookie.markets, m.key = "spreads" ∧
          ∃ o ∈ m.outcomes, (1.5 : ℚ) ≤ o.point.getD 0 ∧
            o.point.getD 0 ≤ 2.5 ∧ cand = favoriteEntry g o) := by
  rw [find_teaser_candidates_eq]
  constructor
  · simp only [List.mem_flatMap]
    constructor
    · rintro ⟨g, hg, hcand⟩
      rw [gameCandidates] at hcand
      rcases hb : g.bookmakers with _ | ⟨bookie, rest⟩
      · rw [hb] at hcand
        simp at hcand
      · rw [hb] at hcand
        simp only [List.mem_flatMap] at hcand
        obtain ⟨m, hm, hcand⟩ := hcand
        rcases hkey : (m.key == "spreads") with _ | _
        · rw [hkey] at hcand
          simp at hcand
        · rw [hkey] at hcand
          simp only [if_true, List.mem_flatMap] at hcand
          obtain ⟨o, ho, hcand⟩ := hcand
          rw [mem_outcomeCandidates_fst] at hcand
          exact ⟨g, hg, bookie, rest, hb, m, hm, by simpa using hkey,
            o, ho, hcand⟩
    · rintro ⟨g, hg, bookie, rest, hb, m, hm, hkey, o, ho, h1, h2, hc⟩
      refine ⟨g, hg, ?_⟩
      rw [gameCandidates, hb]
      simp only [List.mem_flatMap]
      refine ⟨m, hm, ?_⟩
      rw [if_pos (by simpa using hkey)]
      simp only [List.mem_flatMap]
      exact ⟨o, ho, (mem_outcomeCandidates_fst g o cand).mpr ⟨h1, h2, hc⟩⟩
  · simp only [List.mem_flatMap]
    constructor
    · rintro ⟨g, hg, hcand⟩
      rw [gameCandidates] at hcand
      rcases hb : g.bookmakers with _ | ⟨bookie, rest⟩
      · rw [hb] at hcand
        simp at hcand
      · rw [hb] at hcand
        simp only [List.mem_flatMap] at hcand
        obtain ⟨m, hm, hcand⟩ := hcand
        rcases hkey : (m.key == "spreads") with _ | _
        · rw [hkey] at hcand
          simp at hcand
        · rw [hkey] at hcand
          simp only [if_true, List.mem_flatMap] at hcand
          obtain ⟨o, ho, hcand⟩ := hcand
          rw [mem_outcomeCandidates_snd] at hcand
          exact ⟨g, hg, bookie, rest, hb, m, hm, by simpa using hkey,
            o, ho, hcand⟩
    · rintro ⟨g, hg, bookie, rest, hb, m, hm, hkey, o, ho, h1, h2, hc⟩
      refine ⟨g, hg, ?_⟩
      rw [gameCandidates, hb]
      simp only [List.mem_flatMap]
      refine ⟨m, hm, ?_⟩
      rw [if_pos (by simpa using hkey)]
      simp only [List.mem_flatMap]
      exact ⟨o, ho, (mem_outcomeCandidates_snd g o cand).mpr ⟨h1, h2, hc⟩⟩

/-- C9 witness: the demonstration game's home spread of exactly -7.5 is
classified as a Wong-teaser favorite with teased line -1.5. -/
theorem find_teaser_candidates_characterization_witness :
    demoFavCandidate ∈ (find_teaser_candidates [demoGame]).1 :=
  (find_teaser_candidates_characterization [demoGame] demoFavCandidate).1.mpr
    ⟨demoGame, List.mem_singleton.mpr rfl, demoBookmaker, [], rfl,
     demoSpreadsMarket, List.mem_singleton.mpr rfl, rfl,
     ⟨"Chiefs", some (-7.5), none⟩,
     List.mem_cons_self _ _, by norm_num, by norm_num,
     by simp only [demoFavCandidate, favoriteEntry, demoGame]
        norm_num
        exact ⟨by decide, by decide⟩⟩

/-! ### Alert-store lemmas -/

theorem cleanSweep_eq (cutoff : Int) (alerts valid expired : List Alert) :
    cleanSweep cutoff alerts valid expired =
      (valid ++ alerts.filter (alertFresh cutoff),
       (alerts.filter (alertStale cutoff)).reverse ++ expired) := by
  induction alerts generalizing valid expired with
  | nil => simp [cleanSweep]
  | cons a rest ih =>
    cases ht : a.timestamp with
    | none =>
      simp [cleanSweep, ht, List.filter_cons, alertFresh, alertStale, ih]
    | some t =>
      by_cases hc : cutoff < t
      · have hns : ¬ t ≤ cutoff := by omega
        simp [cleanSweep, ht, hc, hns, List.filter_cons, alertFresh, alertStale,
          ih, List.append_assoc]
      · have hs : t ≤ cutoff := by omega
        simp [cleanSweep, ht, hc, hs, List.filter_cons, alertFresh, alertStale,
          ih, List.append_assoc]

theorem updateFirstAlert_append (a e : Alert) (pre post : List Alert)
    (hpre : ∀ x ∈ pre, alertMatches a x = false)
    (he : alertMatches a e = true) :
    updateFirstAlert a (pre ++ e :: post) =
      pre ++ { a with timestamp := e.timestamp } :: post := by
  induction pre with
  | nil => simp [updateFirstAlert, he]
  | cons x xs ih =>
    have hx := hpre x (by simp)
    simp only [List.cons_append, updateFirstAlert, hx, Bool.false_eq_true,
      if_false]
    exact congrArg (x :: ·) (ih (fun y hy => hpre y (by simp [hy])))

/-- C6: the alert store's lifecycle.  Every read or write first runs the
TTL sweep: with a positive TTL, active alerts whose timestamp is at or
before `now − TTL` move (order-reversed) to the front of the expired
list (itself pre-truncated to 500), the rest stay; a TTL ≤ 0 disables
expiry entirely.  Saving an alert that matches an active entry by
game+type rewrites that first matching entry in place, preserving its
original timestamp; one that matches only an expired entry is silently
dropped, leaving the persisted store unchanged; one that matches neither
is inserted at the front of the active list, which is then capped at 200
entries. -/
theorem save_alert_characterization (ttl now : Int) (store : AlertStore)
    (alert : Alert) :
    (ttl ≤ 0 → clean_old_alerts ttl now store = store)
    ∧ (0 < ttl →
        clean_old_alerts ttl now store =
          { alerts := store.alerts.filter (alertFresh (now - ttl * 60)),
            expired :=
              (store.alerts.filter (alertStale (now - ttl * 60))).reverse ++
              (if 500 < store.expired.length then store.expired.take 500
               else store.expired) })
    ∧ get_alerts ttl now store =
        (clean_old_alerts ttl now store, (clean_old_alerts ttl now store).alerts)
    ∧ (∀ pre e post,
        (clean_old_alerts ttl now store).alerts = pre ++ e :: post →
        (∀ x ∈ pre, alertMatches (decorateAlert alert) x = false) →
        alertMatches (decorateAlert alert) e = true →
        save_alert ttl now store alert =
          { alerts :=
              pre ++ { decorateAlert alert with timestamp := e.timestamp } :: post,
            expired := (clean_old_alerts ttl now store).expired })
    ∧ ((clean_old_alerts ttl now store).alerts.any
          (alertMatches (decorateAlert alert)) = false →
        (clean_old_alerts ttl now store).expired.any
          (alertMatches (decorateAlert alert)) = true →
        save_alert ttl now store alert = store)
    ∧ ((clean_old_alerts ttl now store).alerts.any
          (alertMatches (decorateAlert alert)) = false →
        (clean_old_alerts ttl now store).expired.any
          (alertMatches (decorateAlert alert)) = false →
        save_alert ttl now store alert =
          { alerts :=
              (decorateAlert alert :: (clean_old_alerts ttl now store).alerts).take 200,
            expired := (clean_old_alerts ttl now store).expired }) := by
  refine ⟨?_, ?_, rfl, ?_, ?_, ?_⟩
  · intro h
    rw [clean_old_alerts, if_pos h]
  · intro h
    simp only [clean_old_alerts]
    rw [if_neg (by omega)]
    simp [cleanSweep_eq]
  · intro pre e post hsplit hpre he
    have hany : (clean_old_alerts ttl now store).alerts.any
        (alertMatches (decorateAlert alert)) = true := by
      rw [hsplit]
      simp [he]
    simp only [save_alert, hany, if_true]
    rw [hsplit, updateFirstAlert_append _ _ _ _ hpre he]
  · intro h1 h2
    simp only [save_alert, h1, Bool.false_eq_true, if_false, h2, if_true]
  · intro h1 h2
    simp only [save_alert, h1, Bool.false_eq_true, if_false, h2]

/-- C6 witness: re-detecting the `g1` spread movement after its alert
expired leaves the persisted store unchanged — the alert is silently
dropped. -/
theorem save_alert_characterization_witness :
    save_alert 60 7200 demoExpiredStore demoNewAlert = demoExpiredStore :=
  (save_alert_characterization 60 7200 demoExpiredStore demoNewAlert).2.2.2.2.1
    (by decide) (by decide)

/-! ### Line-movement part lemmas -/

theorem mem_spreadMovementPart_fst (sport : String) (now : Int)
    (game_id gameLabel : String) (opening current : LineSet) (m : Movement) :
    m ∈ (spreadMovementPart sport now game_id gameLabel opening current).1 ↔
      ∃ c o, current.spread_home = some c ∧ opening.spread_home = some o ∧
        SPREAD_MOVE_THRESHOLD ≤ |c - o| ∧
        m = { type := "SPREAD", opening := o, current := c, change := c - o } := by
  rcases hc : current.spread_home with _ | c <;>
    rcases ho : opening.spread_home with _ | o <;>
      simp only [spreadMovementPart, hc, ho] <;>
        [skip; simp; simp; skip]
  · simp
  · split_ifs with h <;> simp [h]

theorem mem_spreadMovementPart_snd (sport : String) (now : Int)
    (game_id gameLabel : String) (opening current : LineSet) (a : Alert) :
    a ∈ (spreadMovementPart sport now game_id gameLabel opening current).2 ↔
      ∃ c o, current.spread_home = some c ∧ opening.spread_home = some o ∧
        SPREAD_MOVE_THRESHOLD ≤ |c - o| ∧
        a = { type := "SPREAD_MOVE", game_id := game_id, game := gameLabel,
              movement := "Spread moved", opening := o, current := c,
              significance := if (2 : ℚ) ≤ |c - o| then "HIGH" else "MEDIUM",
              timestamp := some now, sport := sport } := by
  rcases hc : current.spread_home with _ | c <;>
    rcases ho : opening.spread_home with _ | o <;>
      simp only [spreadMovementPart, hc, ho] <;>
        [skip; simp; simp; skip]
  · simp
  · split_ifs with h hsig <;> simp [*]

theorem mem_totalMovementPart_fst (sport : String) (now : Int)
    (game_id gameLabel : String) (opening current : LineSet) (m : Movement) :
    m ∈ (totalMovementPart sport now game_id gameLabel opening current).1 ↔
      ∃ c o, current.total = some c ∧ opening.total = some o ∧
        TOTAL_MOVE_THRESHOLD ≤ |c - o| ∧
        m = { type := "TOTAL", opening := o, current := c, change := c - o } := by
  rcases hc : current.total with _ | c <;>
    rcases ho : opening.total with _ | o <;>
      simp only [totalMovementPart, hc, ho] <;>
        [skip; simp; simp; skip]
  · simp
  · split_ifs with h <;> simp [h]

theorem mem_totalMovementPart_snd (sport : String) (now : Int)
    (game_id gameLabel : String) (opening current : LineSet) (a : Alert) :
    a ∈ (totalMovementPart sport now game_id gameLabel opening current).2 ↔
      ∃ c o, current.total = some c ∧ opening.total = some o ∧
        TOTAL_MOVE_THRESHOLD ≤ |c - o| ∧
        a = { type := "TOTAL_MOVE", game_id := game_id, game := gameLabel,
              movement := "Total moved", opening := o, current := c,
              significance := if (3 : ℚ) ≤ |c - o| then "HIGH" else "MEDIUM",
              timestamp := some now, sport := sport } := by
  rcases hc : current.total with _ | c <;>
    rcases ho : opening.total with _ | o <;>
      simp only [totalMovementPart, hc, ho] <;>
        [skip; simp; simp; skip]
  · simp
  · split_ifs with h hsig <;> simp [*]

theorem mem_mlMovementPart (opening current : LineSet) (m : Movement) :
    m ∈ mlMovementPart opening current ↔
      ∃ c o, current.ml_home = some c ∧ opening.ml_home = some o ∧
        ML_MOVE_THRESHOLD ≤ |c - o| ∧
        m = { type := "MONEYLINE", opening := o, current := c,
              change := c - o } := by
  rcases hc : current.ml_home with _ | c <;>
    rcases ho : opening.ml_home with _ | o <;>
      simp only [mlMovementPart, hc, ho] <;>
        [skip; simp; simp; skip]
  · simp
  · split_ifs with h <;> simp [h]

/-- C7: per game present in both the baseline and the current odds with a
first bookmaker, `compare_to_opening` flags a spread movement exactly
when `|Δspread| ≥ 1.0`, a total movement exactly when `|Δtotal| ≥ 1.5`,
and a moneyline movement exactly when `|Δmoneyline| ≥ 25`; every flagged
spread or total movement is persisted as an alert (significance HIGH at
magnitude ≥ 2 resp. ≥ 3, else MEDIUM); every persisted alert is a
spread or total alert — a flagged moneyline movement appears in the
returned movement list only; and the endpoint function routes exactly the
produced alerts through `save_alert`. -/
theorem compare_to_opening_characterization (sport : String) (now : Int)
    (game_id home away : String) (opening current : LineSet) :
    ((∃ m ∈ (compare_game_movements sport now game_id home away opening current).1,
        m.type = "SPREAD") ↔
      ∃ c o, current.spread_home = some c ∧ opening.spread_home = some o ∧
        (1 : ℚ) ≤ |c - o|)
    ∧ ((∃ m ∈ (compare_game_movements sport now game_id home away opening current).1,
        m.type = "TOTAL") ↔
      ∃ c o, current.total = some c ∧ opening.total = some o ∧
        (1.5 : ℚ) ≤ |c - o|)
    ∧ ((∃ m ∈ (compare_game_movements sport now game_id home away opening current).1,
        m.type = "MONEYLINE") ↔
      ∃ c o, current.ml_home = some c ∧ opening.ml_home = some o ∧
        (25 : ℚ) ≤ |c - o|)
    ∧ (∀ c o, current.spread_home = some c → opening.spread_home = some o →
        (1 : ℚ) ≤ |c - o| →
        ({ type := "SPREAD_MOVE", game_id := game_id, game := away ++ " @ " ++ home,
           movement := "Spread moved", opening := o, current := c,
           significance := if (2 : ℚ) ≤ |c - o| then "HIGH" else "MEDIUM",
           timestamp := some now, sport := sport } : Alert) ∈
          (compare_game_movements sport now game_id home away opening current).2)
    ∧ (∀ c o, current.total = some c → opening.total = some o →
        (1.5 : ℚ) ≤ |c - o| →
        ({ type := "TOTAL_MOVE", game_id := game_id, game := away ++ " @ " ++ home,
           movement := "Total moved", opening := o, current := c,
           significance := if (3 : ℚ) ≤ |c - o| then "HIGH" else "MEDIUM",
           timestamp := some now, sport := sport } : Alert) ∈
          (compare_game_movements sport now game_id home away opening current).2)
    ∧ (∀ a ∈ (compare_game_movements sport now game_id home away opening current).2,
        a.type = "SPREAD_MOVE" ∨ a.type = "TOTAL_MOVE")
    ∧ (∀ (ttl : Int) (store : AlertStore) (openings : List (String × LineSet))
        (g : Game) (bookie : Bookmaker) (rest : List Bookmaker),
        openings.lookup g.id = some opening →
        g.bookmakers = bookie :: rest →
        readBookmakerLines g.home_team bookie.markets = current →
        compare_to_opening ttl now sport openings [g] store =
          ((if (compare_game_movements sport now g.id g.home_team g.away_team
                opening current).1.isEmpty then [] else
              [(g.id, (compare_game_movements sport now g.id g.home_team
                g.away_team opening current).1)]),
           (compare_game_movements sport now g.id g.home_team g.away_team
              opening current).2.foldl (save_alert ttl now) store)) := by
  have hthr1 : SPREAD_MOVE_THRESHOLD = (1 : ℚ) := by
    norm_num [SPREAD_MOVE_THRESHOLD]
  have hthr2 : TOTAL_MOVE_THRESHOLD = (1.5 : ℚ) := rfl
  have hthr3 : ML_MOVE_THRESHOLD = (25 : ℚ) := rfl
  refine ⟨?_, ?_, ?_, ?_, ?_, ?_, ?_⟩
  · constructor
    · rintro ⟨m, hm, hty⟩
      simp only [compare_game_movements, List.mem_append] at hm
      rcases hm with (hm | hm) | hm
      · obtain ⟨c, o, hc, ho, h, rfl⟩ :=
          (mem_spreadMovementPart_fst _ _ _ _ _ _ _).mp hm
        exact ⟨c, o, hc, ho, hthr1 ▸ h⟩
      · obtain ⟨c, o, hc, ho, h, rfl⟩ :=
          (mem_totalMovementPart_fst _ _ _ _ _ _ _).mp hm
        simp at hty
      · obtain ⟨c, o, hc, ho, h, rfl⟩ := (mem_mlMovementPart _ _ _).mp hm
        simp at hty
    · rintro ⟨c, o, hc, ho, h⟩
      refine ⟨{ type := "SPREAD", opening := o, current := c, change := c - o },
        ?_, rfl⟩
      simp only [compare_game_movements, List.mem_append]
      exact Or.inl (Or.inl ((mem_spreadMovementPart_fst _ _ _ _ _ _ _).mpr
        ⟨c, o, hc, ho, hthr1 ▸ h, rfl⟩))
  · constructor
    · rintro ⟨m, hm, hty⟩
      simp only [compare_game_movements, List.mem_append] at hm
      rcases hm with (hm | hm) | hm
      · obtain ⟨c, o, hc, ho, h, rfl⟩ :=
          (mem_spreadMovementPart_fst _ _ _ _ _ _ _).mp hm
        simp at hty
      · obtain ⟨c, o, hc, ho, h, rfl⟩ :=
          (mem_totalMovementPart_fst _ _ _ _ _ _ _).mp hm
        exact ⟨c, o, hc, ho, h⟩
      · obtain ⟨c, o, hc, ho, h, rfl⟩ := (mem_mlMovementPart _ _ _).mp hm
        simp at hty
    · rintro ⟨c, o, hc, ho, h⟩
      refine ⟨{ type := "TOTAL", opening := o, current := c, change := c - o },
        ?_, rfl⟩
      simp only [compare_game_movements, List.mem_append]
      exact Or.inl (Or.inr ((mem_totalMovementPart_fst _ _ _ _ _ _ _).mpr
        ⟨c, o, hc, ho, h, rfl⟩))
  · constructor
    · rintro ⟨m, hm, hty⟩
      simp only [compare_game_movements, List.mem_append] at hm
      rcases hm with (hm | hm) | hm
      · obtain ⟨c, o, hc, ho, h, rfl⟩ :=
          (mem_spreadMovementPart_fst _ _ _ _ _ _ _).mp hm
        simp at hty
      · obtain ⟨c, o, hc, ho, h, rfl⟩ :=
          (mem_totalMovementPart_fst _ _ _ _ _ _ _).mp hm
        simp at hty
      · obtain ⟨c, o, hc, ho, h, rfl⟩ := (mem_mlMovementPart _ _ _).mp hm
        exact ⟨c, o, hc, ho, h⟩
    · rintro ⟨c, o, hc, ho, h⟩
      refine ⟨{ type := "MONEYLINE", opening := o, current := c, change := c - o },
        ?_, rfl⟩
      simp only [compare_game_movements, List.mem_append]
      exact Or.inr ((mem_mlMovementPart _ _ _).mpr ⟨c, o, hc, ho, h, rfl⟩)
  · intro c o hc ho h
    simp only [compare_game_movements, List.mem_append]
    exact Or.inl ((mem_spreadMovementPart_snd _ _ _ _ _ _ _).mpr
      ⟨c, o, hc, ho, hthr1 ▸ h, rfl⟩)
  · intro c o hc ho h
    simp only [compare_game_movements, List.mem_append]
    exact Or.inr ((mem_totalMovementPart_snd _ _ _ _ _ _ _).mpr
      ⟨c, o, hc, ho, h, rfl⟩)
  · intro a ha
    simp only [compare_game_movements, List.mem_append] at ha
    rcases ha with ha | ha
    · obtain ⟨c, o, hc, ho, h, rfl⟩ :=
        (mem_spreadMovementPart_snd _ _ _ _ _ _ _).mp ha
      exact Or.inl rfl
    · obtain ⟨c, o, hc, ho, h, rfl⟩ :=
        (mem_totalMovementPart_snd _ _ _ _ _ _ _).mp ha
      exact Or.inr rfl
  · intro ttl store openings g bookie rest hlook hb hcur
    simp only [compare_to_opening, List.foldl_cons, List.foldl_nil, hlook, hb, hcur]
    simp

/-- C7 witness: a total moving from 44.0 to 45.0 (Δ = 1.0, below the 1.5
threshold) is not flagged: no TOTAL movement entry exists for that
game. -/
theorem compare_to_opening_characterization_witness :
    ¬ ∃ m ∈ (compare_game_movements "americanfootball_nfl" 7200 "g1" "Chiefs"
        "Raiders" { total := some 44 } { total := some 45 }).1,
      m.type = "TOTAL" := by
  intro hex
  obtain ⟨c, o, hc, ho, h⟩ :=
    ((compare_to_opening_characterization "americanfootball_nfl" 7200 "g1"
      "Chiefs" "Raiders" { total := some 44 } { total := some 45 }).2.1).mp hex
  obtain rfl : c = 45 := by simpa using hc.symm
  obtain rfl : o = 44 := by simpa using ho.symm
  norm_num at h

/-! ### Tool-loop lemmas -/

theorem ollamaToolLoopFuel_of_always
    (chat : List ChatMessage → Option (List ToolDef) → OllamaResponse)
    (exec_tool : ToolCall → String) (max_iterations : Nat)
    (hchat : ∀ ms ts, (chat ms ts).message.tool_calls ≠ []) :
    ∀ (fuel it : Nat) (msgs : List ChatMessage) (resp : OllamaResponse),
      max_iterations - it = fuel →
      resp.message.tool_calls ≠ [] →
      it ≤ max_iterations →
      (ollamaToolLoopFuel chat exec_tool max_iterations fuel it msgs resp).1
          = max_iterations
      ∧ (ollamaToolLoopFuel chat exec_tool max_iterations fuel it msgs resp).2.2.2
          = List.replicate fuel none := by
  intro fuel
  induction fuel with
  | zero =>
    intro it msgs resp hf hr hle
    exact ⟨by simp [ollamaToolLoopFuel]; omega, rfl⟩
  | succ n ih =>
    intro it msgs resp hf hr hle
    rw [ollamaToolLoopFuel, if_pos ⟨hr, by omega⟩]
    dsimp only
    obtain ⟨h1, h2⟩ := ih (it + 1) (loopStepMessages exec_tool msgs resp)
      (chat (loopStepMessages exec_tool msgs resp) none) (by omega)
      (hchat _ _) (by omega)
    rw [h1, h2, List.replicate_succ]
    exact ⟨rfl, rfl⟩

theorem ollamaToolLoopFuel_iterations_ge
    (chat : List ChatMessage → Option (List ToolDef) → OllamaResponse)
    (exec_tool : ToolCall → String) (max_iterations : Nat) :
    ∀ (fuel it : Nat) (msgs : List ChatMessage) (resp : OllamaResponse),
      it ≤ (ollamaToolLoopFuel chat exec_tool max_iterations fuel it msgs resp).1 := by
  intro fuel
  induction fuel with
  | zero =>
    intro it msgs resp
    exact le_of_eq rfl
  | succ n ih =>
    intro it msgs resp
    by_cases h : resp.message.tool_calls ≠ [] ∧ it < max_iterations
    · rw [ollamaToolLoopFuel, if_pos h]
      dsimp only
      have := ih (it + 1) (loopStepMessages exec_tool msgs resp)
        (chat (loopStepMessages exec_tool msgs resp) none)
      omega
    · rw [ollamaToolLoopFuel, if_neg h]

theorem ollamaToolLoopFuel_directive_count
    (chat : List ChatMessage → Option (List ToolDef) → OllamaResponse)
    (exec_tool : ToolCall → String) (max_iterations : Nat)
    (hchat : ∀ ms ts, isAnalysisDirective (chat ms ts).message = false) :
    ∀ (fuel it : Nat) (msgs : List ChatMessage) (resp : OllamaResponse),
      isAnalysisDirective resp.message = false →
      (ollamaToolLoopFuel chat exec_tool max_iterations fuel it msgs resp).2.1.countP
          isAnalysisDirective
        = msgs.countP isAnalysisDirective +
          ((ollamaToolLoopFuel chat exec_tool max_iterations fuel it msgs resp).1
            - it) := by
  intro fuel
  induction fuel with
  | zero =>
    intro it msgs resp hresp
    rw [ollamaToolLoopFuel]
    dsimp only
    omega
  | succ n ih =>
    intro it msgs resp hresp
    by_cases h : resp.message.tool_calls ≠ [] ∧ it < max_iterations
    · rw [ollamaToolLoopFuel, if_pos h]
      dsimp only
      have hcount :
          (loopStepMessages exec_tool msgs resp).countP isAnalysisDirective
          = msgs.countP isAnalysisDirective + 1 := by
        have htools : (resp.message.tool_calls.map
            (fun tc => ({ role := "tool", content := exec_tool tc } : ChatMessage))).countP
              isAnalysisDirective = 0 := by
          refine List.countP_eq_zero.mpr (fun m hm => ?_)
          obtain ⟨tc, _, rfl⟩ := List.mem_map.mp hm
          simp [isAnalysisDirective]
        have hdir : isAnalysisDirective analysisDirectiveMessage = true := by
          simp [isAnalysisDirective, analysisDirectiveMessage]
        simp [loopStepMessages, List.countP_append, htools, hresp,
          List.countP_cons, hdir]
      have hge := ollamaToolLoopFuel_iterations_ge chat exec_tool max_iterations
        n (it + 1) (loopStepMessages exec_tool msgs resp)
        (chat (loopStepMessages exec_tool msgs resp) none)
      have hrec := ih (it + 1) (loopStepMessages exec_tool msgs resp)
        (chat (loopStepMessages exec_tool msgs resp) none) (hchat _ _)
      rw [hrec, hcount]
      omega
    · rw [ollamaToolLoopFuel, if_neg h]
      dsimp only
      omega

theorem openaiToolLoopFuel_of_always
    (call : List OAMessage → Option (List ToolDef) → OAResponse)
    (exec_tool : String → List (String × String) → String)
    (parse_args : String → Option (List (String × String)))
    (tool_arg : Option (List ToolDef)) (max_iterations : Nat)
    (hcall : ∀ ms ts, (call ms ts).message.tool_calls ≠ []) :
    ∀ (fuel it : Nat) (msgs : List OAMessage) (resp : OAResponse),
      max_iterations - it = fuel →
      resp.message.tool_calls ≠ [] →
      it ≤ max_iterations →
      (openaiToolLoopFuel call exec_tool parse_args tool_arg max_iterations
        fuel it msgs resp).1 = max_iterations := by
  intro fuel
  induction fuel with
  | zero =>
    intro it msgs resp hf hr hle
    rw [openaiToolLoopFuel]
    omega
  | succ n ih =>
    intro it msgs resp hf hr hle
    rw [openaiToolLoopFuel, if_pos ⟨hr, by omega⟩]
    dsimp only
    exact ih _ _ _ (by omega) (hcall _ _) (by omega)

/-- C4: against any model that always answers with at least one tool
call, the local-model chat loop and the OpenAI handler both stop after
exactly 5 tool-execution iterations and return; on the local path, the
initial model call carries the tool catalog and every follow-up call
inside the loop carries no tools. -/
theorem tool_loop_termination
    (chat : List ChatMessage → Option (List ToolDef) → OllamaResponse)
    (exec_tool : ToolCall → String) (tools : List ToolDef)
    (messages_with_system : List ChatMessage)
    (openai_call : List OAMessage → Option (List ToolDef) → OAResponse)
    (exec_named : String → List (String × String) → String)
    (parse_args : String → Option (List (String × String)))
    (model : String) (oa_tools : List ToolDef) (oa_messages : List OAMessage)
    (hchat : ∀ ms ts, (chat ms ts).message.tool_calls ≠ [])
    (hoai : ∀ ms ts, (openai_call ms ts).message.tool_calls ≠ []) :
    (ollamaChatToolPhase chat exec_tool tools messages_with_system).iterations = 5
    ∧ (ollamaChatToolPhase chat exec_tool tools messages_with_system).chat_tool_args
        = (if tools ≠ [] then some tools else none) :: List.replicate 5 none
    ∧ (handle_openai_chat openai_call exec_named parse_args model oa_tools
        oa_messages).iterations = 5
    ∧ (handle_openai_chat openai_call exec_named parse_args model oa_tools
        oa_messages).envelope.done = true := by
  have hloc := ollamaToolLoopFuel_of_always chat exec_tool 5 hchat 5 0
    messages_with_system
    (chat messages_with_system (if tools ≠ [] then some tools else none))
    rfl (hchat _ _) (by omega)
  have hoa := openaiToolLoopFuel_of_always openai_call exec_named parse_args
    (if oa_tools ≠ [] then some oa_tools else none) 5 hoai 5 0 oa_messages
    (openai_call oa_messages (if oa_tools ≠ [] then some oa_tools else none))
    rfl (hoai _ _) (by omega)
  refine ⟨?_, ?_, ?_, rfl⟩
  · exact hloc.1
  · simp only [ollamaChatToolPhase, ollamaToolLoop, hloc.2]
  · exact hoa

/-- C4 witness: the demonstration always-tool-calling model and provider
are stopped after exactly 5 iterations on both paths, with the catalog on
the initial local call only. -/
theorem tool_loop_termination_witness :
    (ollamaChatToolPhase demoToolChat demoExecTool [] []).iterations = 5
    ∧ (ollamaChatToolPhase demoToolChat demoExecTool [] []).chat_tool_args
        = (if ([] : List ToolDef) ≠ [] then some [] else none)
            :: List.replicate 5 none
    ∧ (handle_openai_chat demoOpenAICall demoExecToolNamed demoParseArgs
        "gpt-4o" [] []).iterations = 5
    ∧ (handle_openai_chat demoOpenAICall demoExecToolNamed demoParseArgs
        "gpt-4o" [] []).envelope.done = true :=
  tool_loop_termination demoToolChat demoExecTool [] [] demoOpenAICall
    demoExecToolNamed demoParseArgs "gpt-4o" [] []
    (fun _ _ => by simp [demoToolChat])
    (fun _ _ => by simp [demoOpenAICall])

/-- C8 counterexample: with an always-tool-calling model and an initially
directive-free transcript, the finished transcript contains five copies of
the directive system message, not exactly one: the message is appended on
every iteration, not only the first. -/
theorem ollama_chat_directive_counterexample :
    (ollamaChatToolPhase demoToolChat demoExecTool [] []).transcript.countP
        isAnalysisDirective = 5
    ∧ (ollamaChatToolPhase demoToolChat demoExecTool [] []).transcript.countP
        isAnalysisDirective ≠ 1 := by
  have hchat1 : ∀ ms ts, (demoToolChat ms ts).message.tool_calls ≠ [] :=
    fun _ _ => by simp [demoToolChat]
  have hchat2 : ∀ ms ts, isAnalysisDirective (demoToolChat ms ts).message = false :=
    fun _ _ => by simp [demoToolChat, isAnalysisDirective]
  have h1 := ollamaToolLoopFuel_of_always demoToolChat demoExecTool 5 hchat1 5 0
    [] (demoToolChat [] none) rfl (hchat1 _ _) (by omega)
  have h2 := ollamaToolLoopFuel_directive_count demoToolChat demoExecTool 5
    hchat2 5 0 [] (demoToolChat [] none) (hchat2 _ _)
  have hcount : (ollamaChatToolPhase demoToolChat demoExecTool [] []).transcript.countP
      isAnalysisDirective = 5 := by
    show (ollamaToolLoopFuel demoToolChat demoExecTool 5 5 0 []
      (demoToolChat [] none)).2.1.countP isAnalysisDirective = 5
    rw [h2, h1.1]
    rfl
  exact ⟨hcount, by rw [hcount]; omega⟩

/-- C8 (amended): the directive system message is appended once per
tool-execution iteration, so a transcript that starts with no directive
message finishes with exactly as many copies as iterations ran (one copy
only when exactly one iteration ran). -/
theorem ollama_chat_directive_per_iteration
    (chat : List ChatMessage → Option (List ToolDef) → OllamaResponse)
    (exec_tool : ToolCall → String) (tools : List ToolDef)
    (messages_with_system : List ChatMessage)
    (hclean : messages_with_system.countP isAnalysisDirective = 0)
    (hchat : ∀ ms ts, isAnalysisDirective (chat ms ts).message = false) :
    (ollamaChatToolPhase chat exec_tool tools messages_with_system).transcript.countP
        isAnalysisDirective
      = (ollamaChatToolPhase chat exec_tool tools messages_with_system).iterations := by
  have h := ollamaToolLoopFuel_directive_count chat exec_tool 5 hchat 5 0
    messages_with_system
    (chat messages_with_system (if tools ≠ [] then some tools else none))
    (hchat _ _)
  simp only [ollamaChatToolPhase, ollamaToolLoop, Nat.sub_zero]
  rw [h, hclean]
  omega

/-- C8 witness: the per-iteration count law applied to the demonstration
model from an empty transcript. -/
theorem ollama_chat_directive_per_iteration_witness :
    (ollamaChatToolPhase demoToolChat demoExecTool [] []).transcript.countP
        isAnalysisDirective
      = (ollamaChatToolPhase demoToolChat demoExecTool [] []).iterations :=
  ollama_chat_directive_per_iteration demoToolChat demoExecTool [] [] rfl
    (fun _ _ => by simp [demoToolChat, isAnalysisDirective])

/-- C1 counterexample: an authenticated, within-budget `/api/chat` request
whose model name starts with `"gpt-"` is delegated to the OpenAI handler
before the logging code is reached, and the handler writes no usage row:
the database leaves the call with as many UsageLog rows as it entered
with — not exactly one more. -/
theorem billed_call_usage_row_counterexample :
    pyStartsWith "gpt-4o" "gpt-" = true
    ∧ (check_budget demoDb 2 1000000 30).1 = true
    ∧ (ollama_chat_endpoint 1000000 demoDb demoBudgetCustomer demoAPIKey
        "gpt-4o" demoToolChat demoExecTool demoOpenAICall demoExecToolNamed
        demoParseArgs [] []).1.usage_logs.length = demoDb.usage_logs.length := by
  refine ⟨by decide, by decide, ?_⟩
  rfl

/-- C1 (amended): every authenticated, within-budget request to a billed
gateway endpoint writes exactly one UsageLog row — except `/api/chat`
with a model name starting `"gpt-"`, which delegates to the OpenAI
tool-calling handler and writes none. -/
theorem billed_endpoints_usage_rows
    (now : Int) (db : GatewayDb) (customer : Customer) (api_key : APIKey)
    (model prompt : String) (stream : Bool)
    (chat : List ChatMessage → Option (List ToolDef) → OllamaResponse)
    (exec_tool : ToolCall → String)
    (openai_call : List OAMessage → Option (List ToolDef) → OAResponse)
    (exec_named : String → List (String × String) → String)
    (parse_args : String → Option (List (String × String)))
    (tools : List ToolDef) (messages : List ChatMessage)
    (oa_messages : List OAMessage)
    (generate : String → String → OllamaResponse)
    (openai_direct : List OAMessage → OACompletion)
    (claude_call : String → ClaudeResponse)
    (hbudget : (check_budget db customer.id now 30).1 = true) :
    (ollama_chat_endpoint now db customer api_key model chat exec_tool
        openai_call exec_named parse_args tools messages).1.usage_logs.length
      = db.usage_logs.length + (if pyStartsWith model "gpt-" then 0 else 1)
    ∧ (ollama_generate_endpoint now db customer api_key model prompt
        generate).1.usage_logs.length = db.usage_logs.length + 1
    ∧ (openai_completions_endpoint now db customer api_key model oa_messages
        openai_direct).1.usage_logs.length = db.usage_logs.length + 1
    ∧ (ollama_openai_completions_endpoint now db customer api_key model
        messages stream chat).1.usage_logs.length = db.usage_logs.length + 1
    ∧ (claude_messages_endpoint now db customer api_key model
        claude_call).1.usage_logs.length = db.usage_logs.length + 1 := by
  refine ⟨?_, ?_, ?_, ?_, ?_⟩
  · by_cases hgpt : pyStartsWith model "gpt-" = true
    · simp [ollama_chat_endpoint, hbudget, hgpt]
    · simp only [Bool.not_eq_true] at hgpt
      simp [ollama_chat_endpoint, hbudget, hgpt, log_usage]
  · simp [ollama_generate_endpoint, hbudget, log_usage]
  · simp [openai_completions_endpoint, hbudget, log_usage]
  · simp [ollama_openai_completions_endpoint, hbudget, log_usage]
  · simp [claude_messages_endpoint, hbudget, log_usage]

/-- C1 witness: the row-count law applied to the demonstration database
and a local model name: the local `/api/chat` path writes exactly one
row. -/
theorem billed_endpoints_usage_rows_witness :
    (ollama_chat_endpoint 1000000 demoDb demoBudgetCustomer demoAPIKey
        "llama3" demoToolChat demoExecTool demoOpenAICall demoExecToolNamed
        demoParseArgs [] []).1.usage_logs.length
      = demoDb.usage_logs.length +
          (if pyStartsWith "llama3" "gpt-" then 0 else 1) :=
  (billed_endpoints_usage_rows 1000000 demoDb demoBudgetCustomer demoAPIKey
    "llama3" "" false demoToolChat demoExecTool demoOpenAICall
    demoExecToolNamed demoParseArgs [] [] []
    (fun _ _ => { message := { role := "assistant", content := "ok" } })
    (fun _ => { message := { role := "assistant", content := some "ok" },
                usage := {} })
    (fun _ => { content := "ok", usage := {} })
    (by decide)).1

end LMSvr
